import Mathlib

/-!
Verification of the padlock authentication core against its specification.

The development shallowly embeds the TypeScript source:
  * `src/lib/padlock/padlock.ts`   — orchestrator (`Padlock.auth`, `Padlock.callback`,
    `Padlock.authorize`, constructor validation, CSRF guard, token extraction);
  * `src/lib/padlock/jwt.ts`       — session token codec (`signJwt` / `verifyJwt`);
  * the GitHub provider descriptor (default scopes, email resolution in `fetchUser`);
  * the Microsoft provider descriptor (tenant segment resolution, `getJwtTenantId`,
    tenant allow-list enforcement in `exchangeCode`).

Platform primitives used by the source (the host runtime's `JSON.parse` /
`JSON.stringify`, base64url decoding, WHATWG URL origin computation, the
`jsonwebtoken` HMAC codec) are modelled explicitly below; network calls and
the caller-supplied hooks are oracle parameters, so theorems quantify over
every possible remote behaviour.
-/

set_option maxHeartbeats 1000000
set_option maxRecDepth 4000

namespace Padlock

/-- JSON values as handled by the host runtime.  Numbers keep their source
text, since no claim depends on numeric semantics. -/
inductive Json where
  | null
  | bool (b : Bool)
  | num (s : String)
  | str (s : String)
  | arr (elems : List Json)
  | obj (fields : List (String × Json))
deriving Repr

/-- Whitespace characters accepted between JSON tokens. -/
def isWs (c : Char) : Bool := c = ' ' || c = '\t' || c = '\n' || c = '\r'

/-- Drop leading JSON whitespace. -/
def skipWs : List Char → List Char
  | [] => []
  | c :: cs => if isWs c then skipWs cs else c :: cs

/-- Value of a hexadecimal digit. -/
def hexVal (c : Char) : Option Nat :=
  if '0' ≤ c ∧ c ≤ '9' then some (c.toNat - 48)
  else if 'a' ≤ c ∧ c ≤ 'f' then some (c.toNat - 87)
  else if 'A' ≤ c ∧ c ≤ 'F' then some (c.toNat - 55)
  else none

/-- Decimal/hex digit test. -/
def isDigit (c : Char) : Bool := '0' ≤ c && c ≤ '9'

/-- Split off a maximal run of decimal digits. -/
def takeDigits : List Char → (List Char × List Char)
  | [] => ([], [])
  | c :: cs =>
    if isDigit c then
      let p := takeDigits cs
      (c :: p.1, p.2)
    else ([], c :: cs)

/-- Body of a JSON string literal (after the opening quote), with the
standard escapes.  A `\uXXXX` escape denoting a non-scalar value (lone
surrogate) is modelled as the NUL character; no claim exercises that case. -/
def parseJString : Nat → List Char → Option (List Char × List Char)
  | 0, _ => none
  | _, [] => none
  | f+1, c :: cs =>
    if c = '"' then some ([], cs)
    else if c = '\\' then
      match cs with
      | '"' :: r => (parseJString f r).map fun p => ('"' :: p.1, p.2)
      | '\\' :: r => (parseJString f r).map fun p => ('\\' :: p.1, p.2)
      | '/' :: r => (parseJString f r).map fun p => ('/' :: p.1, p.2)
      | 'b' :: r => (parseJString f r).map fun p => (Char.ofNat 8 :: p.1, p.2)
      | 'f' :: r => (parseJString f r).map fun p => (Char.ofNat 12 :: p.1, p.2)
      | 'n' :: r => (parseJString f r).map fun p => ('\n' :: p.1, p.2)
      | 'r' :: r => (parseJString f r).map fun p => ('\r' :: p.1, p.2)
      | 't' :: r => (parseJString f r).map fun p => ('\t' :: p.1, p.2)
      | 'u' :: h1 :: h2 :: h3 :: h4 :: r =>
        match hexVal h1, hexVal h2, hexVal h3, hexVal h4 with
        | some a, some b, some c2, some d =>
          (parseJString f r).map fun p =>
            (Char.ofNat (((a * 16 + b) * 16 + c2) * 16 + d) :: p.1, p.2)
        | _, _, _, _ => none
      | _ => none
    else if c.toNat < 32 then none
    else (parseJString f cs).map fun p => (c :: p.1, p.2)

/-- Optional fraction part of a JSON number. -/
def parseFracPart : List Char → Option (List Char × List Char)
  | '.' :: r =>
    let p := takeDigits r
    if p.1.isEmpty then none else some ('.' :: p.1, p.2)
  | l => some ([], l)

/-- Optional exponent part of a JSON number. -/
def parseExpPart : List Char → Option (List Char × List Char)
  | c :: r =>
    if c = 'e' ∨ c = 'E' then
      let sp : List Char × List Char :=
        match r with
        | '+' :: r2 => (['+'], r2)
        | '-' :: r2 => (['-'], r2)
        | _ => ([], r)
      let p := takeDigits sp.2
      if p.1.isEmpty then none else some (c :: (sp.1 ++ p.1), p.2)
    else some ([], c :: r)
  | [] => some ([], [])

/-- A JSON number, returned as its source text. -/
def parseJNum (l : List Char) : Option (List Char × List Char) :=
  let sp : List Char × List Char :=
    match l with
    | '-' :: r => (['-'], r)
    | _ => ([], l)
  let dp := takeDigits sp.2
  if dp.1.isEmpty then none
  else if dp.1.length > 1 && dp.1.headD 'x' = '0' then none
  else
    match parseFracPart dp.2 with
    | none => none
    | some (fp, l3) =>
      match parseExpPart l3 with
      | none => none
      | some (ep, l4) => some (sp.1 ++ dp.1 ++ fp ++ ep, l4)

mutual

/-- Recursive-descent JSON value parser (fuelled for totality). -/
def parseVal : Nat → List Char → Option (Json × List Char)
  | 0, _ => none
  | f+1, l =>
    match skipWs l with
    | 'n' :: 'u' :: 'l' :: 'l' :: r => some (.null, r)
    | 't' :: 'r' :: 'u' :: 'e' :: r => some (.bool true, r)
    | 'f' :: 'a' :: 'l' :: 's' :: 'e' :: r => some (.bool false, r)
    | '"' :: r =>
      (parseJString (r.length + 1) r).map fun p => (.str (String.mk p.1), p.2)
    | '[' :: r =>
      match skipWs r with
      | ']' :: r2 => some (.arr [], r2)
      | r2 => (parseArrItems f r2).map fun p => (.arr p.1, p.2)
    | '{' :: r =>
      match skipWs r with
      | '}' :: r2 => some (.obj [], r2)
      | r2 => (parseObjItems f r2).map fun p => (.obj p.1, p.2)
    | l2 => (parseJNum l2).map fun p => (.num (String.mk p.1), p.2)

/-- Comma-separated array items up to the closing bracket. -/
def parseArrItems : Nat → List Char → Option (List Json × List Char)
  | 0, _ => none
  | f+1, l =>
    match parseVal f l with
    | none => none
    | some (v, r) =>
      match skipWs r with
      | ',' :: r2 => (parseArrItems f r2).map fun p => (v :: p.1, p.2)
      | ']' :: r2 => some ([v], r2)
      | _ => none

/-- Comma-separated object members up to the closing brace. -/
def parseObjItems : Nat → List Char → Option (List (String × Json) × List Char)
  | 0, _ => none
  | f+1, l =>
    match skipWs l with
    | '"' :: r =>
      match parseJString (r.length + 1) r with
      | none => none
      | some (k, r2) =>
        match skipWs r2 with
        | ':' :: r3 =>
          match parseVal f r3 with
          | none => none
          | some (v, r4) =>
            match skipWs r4 with
            | ',' :: r5 =>
              (parseObjItems f r5).map fun p => ((String.mk k, v) :: p.1, p.2)
            | '}' :: r5 => some ([(String.mk k, v)], r5)
            | _ => none
        | _ => none
    | _ => none

end

/-- Model of the runtime's `JSON.parse`: `none` models a thrown SyntaxError. -/
def Json.parse (s : String) : Option Json :=
  match parseVal (s.length + 1) s.data with
  | some (v, r) => if (skipWs r).isEmpty then some v else none
  | none => none

/-- Hexadecimal digit for escaping. -/
def hexDigit (n : Nat) : Char :=
  if n < 10 then Char.ofNat (48 + n) else Char.ofNat (87 + n)

/-- `JSON.stringify` escaping of one character. -/
def escChar (c : Char) : List Char :=
  if c = '"' then ['\\', '"']
  else if c = '\\' then ['\\', '\\']
  else if c = '\n' then ['\\', 'n']
  else if c = '\r' then ['\\', 'r']
  else if c = '\t' then ['\\', 't']
  else if c.toNat = 8 then ['\\', 'b']
  else if c.toNat = 12 then ['\\', 'f']
  else if c.toNat < 32 then
    ['\\', 'u', '0', '0', hexDigit (c.toNat / 16), hexDigit (c.toNat % 16)]
  else [c]

/-- `JSON.stringify` escaping of a string body. -/
def jsonEscape (s : String) : String := String.mk (s.data.flatMap escChar)

mutual

/-- Model of the runtime's `JSON.stringify` on the values the source builds. -/
def Json.stringify : Json → String
  | .null => "null"
  | .bool true => "true"
  | .bool false => "false"
  | .num s => s
  | .str s => "\"" ++ jsonEscape s ++ "\""
  | .arr xs => "[" ++ stringifyItems xs ++ "]"
  | .obj fs => "\x7b" ++ stringifyMembers fs ++ "\x7d"

/-- Array items of `JSON.stringify`. -/
def stringifyItems : List Json → String
  | [] => ""
  | [x] => Json.stringify x
  | x :: xs => Json.stringify x ++ "," ++ stringifyItems xs

/-- Object members of `JSON.stringify`. -/
def stringifyMembers : List (String × Json) → String
  | [] => ""
  | [kv] => "\"" ++ jsonEscape kv.1 ++ "\":" ++ Json.stringify kv.2
  | kv :: fs =>
    "\"" ++ jsonEscape kv.1 ++ "\":" ++ Json.stringify kv.2 ++ "," ++ stringifyMembers fs

end

/-- Last binding of a key, as JS property access on a `JSON.parse` result
(duplicate JSON keys: last one wins). -/
def lookupLast (fs : List (String × Json)) (k : String) : Option Json :=
  match fs with
  | [] => none
  | kv :: rest =>
    match lookupLast rest k with
    | some r => some r
    | none => if kv.1 = k then some kv.2 else none

/-- JS property access `j.k`: `none` models `undefined`. -/
def Json.getField : Json → String → Option Json
  | .obj fs, k => lookupLast fs k
  | _, _ => none

/-- Extract a JS string, `none` for any other value. -/
def Json.asString : Json → Option String
  | .str s => some s
  | _ => none

/-- Property access `j.k` narrowed to a string value; any non-string value
behaves like the absent/value cases of its call sites (`getProviderId`
treats it as unknown, strict `!==` against a string never equates it). -/
def jsonStrField (j : Json) (k : String) : Option String :=
  match j.getField k with
  | some (.str s) => some s
  | _ => none

/-- Zero test on JSON number source text (sign and exponent stripped). -/
def numIsZero (s : String) : Bool :=
  let l := match s.data with
    | '-' :: r => r
    | l => l
  let mant := l.takeWhile fun c => c ≠ 'e' ∧ c ≠ 'E'
  mant.all fun c => c = '0' ∨ c = '.'

/-- JS truthiness of a JSON value. -/
def Json.truthy : Json → Bool
  | .null => false
  | .bool b => b
  | .num s => ¬ numIsZero s
  | .str s => s ≠ ""
  | .arr _ => true
  | .obj _ => true

/-! ## Bytes, base64url, UTF-8

Models of the Node primitives used by `getJwtTenantId`
(`Buffer.from(s, "base64url").toString("utf-8")`).  The model is strict where
Node is lenient (invalid base64 characters or invalid UTF-8 yield `none`
instead of being skipped / replaced); in the source any such garbage makes the
subsequent `JSON.parse` throw, which the provider maps to `null` as well. -/

/-- 6-bit value of a base64url alphabet character. -/
def b64Val (c : Char) : Option Nat :=
  if 'A' ≤ c ∧ c ≤ 'Z' then some (c.toNat - 65)
  else if 'a' ≤ c ∧ c ≤ 'z' then some (c.toNat - 71)
  else if isDigit c then some (c.toNat + 4)
  else if c = '-' then some 62
  else if c = '_' then some 63
  else none

/-- Reassemble bytes from 6-bit groups; a dangling single group is dropped. -/
def b64Bytes : List Nat → List Nat
  | a :: b :: c :: d :: rest =>
    (a * 4 + b / 16) :: ((b % 16) * 16 + c / 4) :: ((c % 4) * 64 + d) :: b64Bytes rest
  | [a, b] => [a * 4 + b / 16]
  | [a, b, c] => [a * 4 + b / 16, (b % 16) * 16 + c / 4]
  | _ => []

/-- base64url string to raw bytes. -/
def base64urlDecode (s : String) : Option (List Nat) :=
  (s.data.mapM b64Val).map b64Bytes

/-- Fuelled UTF-8 decoder. -/
def utf8Decode : Nat → List Nat → Option (List Char)
  | 0, _ => none
  | _, [] => some []
  | f+1, b :: r =>
    if b < 128 then (utf8Decode f r).map (Char.ofNat b :: ·)
    else if 194 ≤ b ∧ b ≤ 223 then
      match r with
      | b2 :: r2 =>
        if 128 ≤ b2 ∧ b2 < 192 then
          (utf8Decode f r2).map (Char.ofNat ((b - 192) * 64 + (b2 - 128)) :: ·)
        else none
      | _ => none
    else if 224 ≤ b ∧ b ≤ 239 then
      match r with
      | b2 :: b3 :: r2 =>
        if (128 ≤ b2 ∧ b2 < 192) ∧ (128 ≤ b3 ∧ b3 < 192) then
          let v := (b - 224) * 4096 + (b2 - 128) * 64 + (b3 - 128)
          if 2048 ≤ v ∧ ¬ (55296 ≤ v ∧ v ≤ 57343) then
            (utf8Decode f r2).map (Char.ofNat v :: ·)
          else none
        else none
      | _ => none
    else if 240 ≤ b ∧ b ≤ 244 then
      match r with
      | b2 :: b3 :: b4 :: r2 =>
        if (128 ≤ b2 ∧ b2 < 192) ∧ (128 ≤ b3 ∧ b3 < 192) ∧ (128 ≤ b4 ∧ b4 < 192) then
          let v := (b - 240) * 262144 + (b2 - 128) * 4096 + (b3 - 128) * 64 + (b4 - 128)
          if 65536 ≤ v ∧ v ≤ 1114111 then
            (utf8Decode f r2).map (Char.ofNat v :: ·)
          else none
        else none
      | _ => none
    else none

/-- base64url string decoded as UTF-8 text. -/
def base64urlToUtf8 (s : String) : Option String :=
  match base64urlDecode s with
  | none => none
  | some bytes => (utf8Decode (bytes.length + 1) bytes).map String.mk

/-- UTF-8 bytes of one character (for percent-encoding). -/
def utf8Encode (c : Char) : List Nat :=
  let n := c.toNat
  if n < 128 then [n]
  else if n < 2048 then [192 + n / 64, 128 + n % 64]
  else if n < 65536 then [224 + n / 4096, 128 + (n / 64) % 64, 128 + n % 64]
  else [240 + n / 262144, 128 + (n / 4096) % 64, 128 + (n / 64) % 64, 128 + n % 64]

/-! ## WHATWG URL origins

Model of `new URL(x).origin` as used by `isSameOrigin`: special schemes give a
`scheme://host[:port]` tuple origin with default ports elided; other parseable
URLs give the opaque origin, serialised `"null"`; unparseable input gives
`none` (a thrown TypeError).  IPv6 host brackets are not modelled; no claim
uses them. -/

/-- Characters allowed in a URL scheme. -/
def isSchemeChar (c : Char) : Bool := c.isAlpha || isDigit c || c = '+' || c = '-' || c = '.'

/-- Special schemes whose origins are tuple origins, with their default ports. -/
def specialSchemeDefaultPort (s : String) : Option Nat :=
  if s = "http" then some 80
  else if s = "https" then some 443
  else if s = "ws" then some 80
  else if s = "wss" then some 443
  else if s = "ftp" then some 21
  else none

/-- Numeric value of a digit run. -/
def charsToNat (l : List Char) : Nat :=
  l.foldl (fun acc c => acc * 10 + (c.toNat - 48)) 0

/-- Model of `new URL(s).origin`; `none` models a parse failure (throw). -/
def urlOrigin (s : String) : Option String :=
  let l := s.data
  let sch := l.takeWhile fun c => c ≠ ':'
  let rest := l.drop sch.length
  if sch.isEmpty then none
  else if ¬ (sch.headD ' ').isAlpha then none
  else if ¬ sch.all isSchemeChar then none
  else if rest.isEmpty then none
  else
    let schemeL := String.mk (sch.map Char.toLower)
    match specialSchemeDefaultPort schemeL with
    | none => some "null"
    | some dflt =>
      match rest with
      | ':' :: '/' :: '/' :: r =>
        let auth := r.takeWhile fun c => c ≠ '/' ∧ c ≠ '?' ∧ c ≠ '#'
        let hostport :=
          if auth.contains '@' then (auth.reverse.takeWhile (· ≠ '@')).reverse else auth
        let host := hostport.takeWhile fun c => c ≠ ':'
        let portPart := hostport.drop host.length
        if host.isEmpty then none
        else
          let hostL := String.mk (host.map Char.toLower)
          match portPart with
          | [] => some (schemeL ++ "://" ++ hostL)
          | _ :: pd =>
            if pd.isEmpty then some (schemeL ++ "://" ++ hostL)
            else if ¬ pd.all isDigit then none
            else if charsToNat pd = dflt then some (schemeL ++ "://" ++ hostL)
            else some (schemeL ++ "://" ++ hostL ++ ":" ++ toString (charsToNat pd))
      | _ => none

/-- `isSameOrigin` from `padlock.ts`: compare computed origins, any URL parse
failure yields `false` via the try/catch. -/
def isSameOrigin (origin baseUrl : String) : Bool :=
  match urlOrigin origin, urlOrigin baseUrl with
  | some a, some b => a = b
  | _, _ => false

/-! ## HTTP errors and the error channel -/

/-- A SvelteKit `error(status, message)` value. -/
structure HttpErr where
  status : Nat
  msg : String
deriving Repr, DecidableEq

/-- Anything a handler can throw: a status-bearing HTTP error, or an arbitrary
exception (network failure, provider exception, ...) identified by a tag. -/
inductive Err where
  | http (e : HttpErr)
  | raw (tag : String)
deriving Repr, DecidableEq

/-- JS falsiness of a `string | undefined` header/cookie/parameter value. -/
def strFalsy : Option String → Bool
  | none => true
  | some s => s = ""

/-- `enforceCsrf` from `padlock.ts`: reject a present `Origin` or `Referer`
header whose origin differs from the base URL's. -/
def enforceCsrf (origin referer : Option String) (baseUrl : String) : Except HttpErr Unit := do
  match origin with
  | some o =>
    if o ≠ "" ∧ ¬ isSameOrigin o baseUrl then throw ⟨403, "invalid origin"⟩
  | none => pure ()
  match referer with
  | some r =>
    if r ≠ "" ∧ ¬ isSameOrigin r baseUrl then throw ⟨403, "invalid referer"⟩
  | none => pure ()

/-! ## Form encoding (`URLSearchParams`) -/

/-- Uppercase hex digit. -/
def hexDigitUp (n : Nat) : Char :=
  if n < 10 then Char.ofNat (48 + n) else Char.ofNat (55 + n)

/-- application/x-www-form-urlencoded encoding of one character. -/
def formEncodeChar (c : Char) : List Char :=
  if c = ' ' then ['+']
  else if c.isAlphanum || c = '*' || c = '-' || c = '.' || c = '_' then [c]
  else (utf8Encode c).flatMap fun b => ['%', hexDigitUp (b / 16), hexDigitUp (b % 16)]

/-- Form-encode a string. -/
def formEncode (s : String) : String := String.mk (s.data.flatMap formEncodeChar)

/-- `URLSearchParams({...}).toString()` over ordered key/value pairs. -/
def formEncodePairs (kvs : List (String × String)) : String :=
  String.intercalate "&" (kvs.map fun kv => formEncode kv.1 ++ "=" ++ formEncode kv.2)

/-! ## Session token codec (`jwt.ts` via the `jsonwebtoken` library)

`signJwt` signs `{sub, provider, providerAccountId}` with HS256 and an expiry;
`verifyJwt` / `jwt.verify` reject a bad signature or an expired token and
otherwise return the payload together with the `iat`/`exp` claims the library
added.  The serialisation and the HMAC are modelled symbolically: fields are
joined with `.` after escaping, and the tag is a keyed function of secret and
content — exactly the structure (header.payload.signature, key-dependent tag)
the library produces. -/

/-- Escape `%` and `.` so that fields are dot-free. -/
def escDotChar (c : Char) : List Char :=
  if c = '%' then ['%', 'p'] else if c = '.' then ['%', 'd'] else [c]

/-- Escape a field for embedding in the dotted token. -/
def escDot (l : List Char) : List Char := l.flatMap escDotChar

/-- Inverse of `escDot` (total; garbage passes through). -/
def unescDot : List Char → List Char
  | [] => []
  | [c] => [c]
  | c :: d :: r =>
    if c = '%' ∧ d = 'p' then '%' :: unescDot r
    else if c = '%' ∧ d = 'd' then '.' :: unescDot r
    else c :: unescDot (d :: r)

/-- Split on a delimiter character. -/
def splitOnChar (d : Char) : List Char → List (List Char)
  | [] => [[]]
  | c :: cs =>
    let r := splitOnChar d cs
    if c = d then [] :: r
    else
      match r with
      | [] => [[c]]
      | h :: t => (c :: h) :: t

/-- Join with a delimiter character. -/
def joinWith (d : Char) : List (List Char) → List Char
  | [] => []
  | [x] => x
  | x :: xs => x ++ d :: joinWith d xs

/-- One decimal digit. -/
def digitChar (n : Nat) : Char :=
  match n with
  | 0 => '0' | 1 => '1' | 2 => '2' | 3 => '3' | 4 => '4'
  | 5 => '5' | 6 => '6' | 7 => '7' | 8 => '8' | 9 => '9'
  | _ => '*'

/-- Decimal digits of a number, least significant first. -/
def natDigitsRev (n : Nat) : List Char :=
  if h : n < 10 then [digitChar n]
  else digitChar (n % 10) :: natDigitsRev (n / 10)
termination_by n
decreasing_by exact Nat.div_lt_self (by omega) (by omega)

/-- Decimal representation of a number. -/
def natToChars (n : Nat) : List Char := (natDigitsRev n).reverse

/-- Parse a nonempty all-digit run; anything else is rejected. -/
def parseNatStrict (l : List Char) : Option Nat :=
  if l.isEmpty then none
  else if l.all isDigit then some (charsToNat l)
  else none

/-- Symbolic HMAC-SHA256 tag over content, keyed by the secret. -/
def macTag (secret : List Char) (content : List Char) : List Char :=
  "hmac-sha256:".data ++ secret ++ ':' :: content

/-- The session payload signed by `respondWithUser` (`jwt.ts`). -/
structure PadlockJwtPayload where
  sub : String
  provider : String
  providerAccountId : String
deriving Repr, DecidableEq

/-- A verified payload: the signed claims plus the `iat`/`exp` metadata the
library adds at signing time. -/
structure VerifiedPayload where
  sub : String
  provider : String
  providerAccountId : String
  iat : Nat
  exp : Nat
deriving Repr, DecidableEq

/-- `signJwt(payload, secret, expiresInSeconds)` at clock time `now`
(seconds): HS256 token carrying the payload, `iat = now` and
`exp = now + expiresInSeconds` (the source defaults `expiresInSeconds` to
3600 when the configuration gives none). -/
def signJwt (p : PadlockJwtPayload) (secret : String) (expiresInSeconds : Nat) (now : Nat) : String :=
  let content := joinWith '.'
    [escDot p.sub.data, escDot p.provider.data, escDot p.providerAccountId.data,
     escDot (natToChars now), escDot (natToChars (now + expiresInSeconds))]
  String.mk (content ++ '.' :: escDot (macTag secret.data content))

/-- `verifyJwt(token, secret)` / `jwt.verify` at clock time `now`: `none`
models a thrown verification error (bad structure, bad signature, or
`now ≥ exp`). -/
def verifyJwt (token : String) (secret : String) (now : Nat) : Option VerifiedPayload :=
  match splitOnChar '.' token.data with
  | [f1, f2, f3, f4, f5, f6] =>
    let content := joinWith '.' [f1, f2, f3, f4, f5]
    if unescDot f6 ≠ macTag secret.data content then none
    else
      match parseNatStrict (unescDot f4), parseNatStrict (unescDot f5) with
      | some iat, some expiry =>
        if now < expiry then
          some ⟨String.mk (unescDot f1), String.mk (unescDot f2),
                String.mk (unescDot f3), iat, expiry⟩
        else none
      | _, _ => none
  | _ => none

/-! ## Provider configuration and descriptors -/

/-- `ProviderConfig` from `types.ts`, plus the legacy `scope` string field that
`padlock.ts` still reads (`providerConfig.scope`). -/
structure ProviderConfig where
  clientId : String
  clientSecret : String
  scopes : Option (List String)
  scope : Option String
  redirectUri : Option String
  allowedTenants : Option (List String)
deriving Repr, DecidableEq

/-- `getTenant` (Microsoft provider): the single allowed tenant, if exactly
one is configured. -/
def getTenant (config : ProviderConfig) : Option String :=
  match config.allowedTenants with
  | none => none
  | some tenants => if tenants.length ≠ 1 then none else tenants.head?

/-- `getAuthorizeUrl` (Microsoft provider). -/
def getAuthorizeUrl (config : ProviderConfig) : String :=
  "https://login.microsoftonline.com/" ++ (getTenant config).getD "common"
    ++ "/oauth2/v2.0/authorize"

/-- `getTokenUrl` (Microsoft provider). -/
def getTokenUrl (config : ProviderConfig) : String :=
  "https://login.microsoftonline.com/" ++ (getTenant config).getD "common"
    ++ "/oauth2/v2.0/token"

/-- `getJwtTenantId` (Microsoft provider): base64url-decode the second token
segment, parse it as JSON and read the `tid` claim; every failure, a missing
claim, and a non-string claim yield `null` (a non-string `tid` is returned
raw by the source but can never match the string allow-list, so it is
equivalent to `null` for every caller). -/
def getJwtTenantId (token : String) : Option String :=
  let parts := (splitOnChar '.' token.data).map String.mk
  if parts.length < 2 then none
  else
    match base64urlToUtf8 (parts.getD 1 "") with
    | none => none
    | some text =>
      match Json.parse text with
      | none => none
      | some j =>
        match j.getField "tid" with
        | some (.str s) => some s
        | _ => none

/-- The tenant allow-list enforcement of `microsoft.exchangeCode` on the
`access_token` field of the token response (`allowedTenants` filtered of
falsy entries; a truthy string token is decoded with `getJwtTenantId`, a
truthy non-string token could never match the string list). -/
def msTenantCheck (config : ProviderConfig) (accessToken : Option Json) :
    Except Err (Option Json) :=
  let allowedTenants := (config.allowedTenants.getD []).filter (· ≠ "")
  if allowedTenants ≠ [] then
    let tenantId : Option String :=
      match accessToken with
      | some v =>
        if v.truthy then
          match v with
          | .str s => getJwtTenantId s
          | _ => none
        else none
      | none => none
    match tenantId with
    | none => .error (.raw "tenant not allowed")
    | some t =>
      if allowedTenants.contains t then .ok accessToken
      else .error (.raw "tenant not allowed")
  else .ok accessToken

/-- `microsoft.exchangeCode` after the token-endpoint POST: `resp` is the
outcome of `fetch` + `res.json()` (an oracle).  A `null` body makes the
`json.access_token` access throw; otherwise the tenant allow-list is
enforced on the issued access token. -/
def microsoftExchangeCode (config : ProviderConfig) (resp : Except Err Json) :
    Except Err (Option Json) :=
  match resp with
  | .error e => .error e
  | .ok .null => .error (.raw "TypeError")
  | .ok j => msTenantCheck config (j.getField "access_token")

/-! ## Normalized users and the GitHub provider -/

/-- `OAuthUser`: the normalized user shape.  `email`, `name` and `avatar`
keep their raw JSON value (`Json.null` for JS `null`). -/
structure OAuthUser where
  provider : String
  providerAccountId : String
  email : Json
  name : Json
  avatar : Json
  raw : Json
deriving Repr

/-- JS nullish test (`undefined` or `null`) on a property-access result. -/
def jsNullish : Option Json → Bool
  | none => true
  | some .null => true
  | some _ => false

/-- JS nullish coalescing `o ?? d`. -/
def jsCoalesce (o : Option Json) (d : Json) : Json :=
  if jsNullish o then d else o.getD d

/-- Truthiness of `entry?.k`. -/
def truthyField (e : Json) (k : String) : Bool :=
  match e.getField k with
  | some v => v.truthy
  | none => false

/-- `entry?.email`, normalised so that `??` chaining skips null/undefined. -/
def emailField (e : Option Json) : Option Json :=
  match e with
  | some entry =>
    match entry.getField "email" with
    | some .null => none
    | some v => some v
    | none => none
  | none => none

/-- Outcome of the secondary `/user/emails` lookup: the `fetch`/`res.json()`
pair threw (caught and ignored by the source), or a response with its `ok`
flag and parsed body. -/
inductive EmailsLookup where
  | failed
  | response (ok : Bool) (body : Json)

/-- `String(x)` on a property-access result, as used for `String(gh.id)`.
Arrays and objects are given placeholder renderings; no claim inspects
them. -/
def jsToString (o : Option Json) : String :=
  match o with
  | none => "undefined"
  | some .null => "null"
  | some (.bool true) => "true"
  | some (.bool false) => "false"
  | some (.str s) => s
  | some (.num s) => s
  | some (.arr _) => "[array]"
  | some (.obj _) => "[object Object]"

/-- `github.fetchUser` given the parsed primary userinfo response `gh` and
the secondary email-lookup outcome.  A `null` primary body makes the
unguarded `gh.email` access throw. -/
def githubFetchUser (gh : Json) (lookup : EmailsLookup) : Except Err OAuthUser :=
  match gh with
  | .null => .error (.raw "TypeError")
  | _ =>
    let email0 := jsCoalesce (gh.getField "email") Json.null
    let email :=
      if email0.truthy then email0
      else
        match lookup with
        | .failed => email0
        | .response ok body =>
          if ok then
            match body with
            | .arr es =>
              if es.length > 0 then
                let pv := es.find? fun e => truthyField e "primary" && truthyField e "verified"
                let pr := es.find? fun e => truthyField e "primary"
                jsCoalesce (emailField pv <|> emailField pr <|> emailField es.head?) Json.null
              else email0
            | _ => email0
          else email0
    .ok
      { provider := "github"
        providerAccountId := jsToString (gh.getField "id")
        email := email
        name := jsCoalesce (gh.getField "name") (jsCoalesce (gh.getField "login") Json.null)
        avatar := jsCoalesce (gh.getField "avatar_url") Json.null
        raw := gh }

/-- Modelled from the spec (§4.1 email-resolution policy), for comparison
with `githubFetchUser`: select the entry marked both primary and verified,
else the entry marked primary, else the first entry, else null, and resolve
to that entry's email. -/
def specEmailSelection (es : List Json) : Json :=
  let chosen :=
    (es.find? fun e => truthyField e "primary" && truthyField e "verified") <|>
    (es.find? fun e => truthyField e "primary") <|>
    es.head?
  match chosen with
  | some e => jsCoalesce (e.getField "email") Json.null
  | none => Json.null

/-- A provider descriptor as `padlock.ts` consumes it: endpoints that are
either constants (GitHub) or functions of the configuration (Microsoft),
plus the default scopes.  JS template interpolation of a function-valued
endpoint would yield the function's source text; that is modelled by an
opaque marker, which no claim exercises. -/
structure OAuthProviderD where
  id : String
  authorizeUrl : String ⊕ (ProviderConfig → String)
  tokenUrl : String ⊕ (ProviderConfig → String)
  defaultScopes : List String

/-- The GitHub descriptor. -/
def github : OAuthProviderD where
  id := "github"
  authorizeUrl := .inl "https://github.com/login/oauth/authorize"
  tokenUrl := .inl "https://github.com/login/oauth/access_token"
  defaultScopes := ["read:user", "user:email"]

/-- The Microsoft descriptor. -/
def microsoft : OAuthProviderD where
  id := "microsoft"
  authorizeUrl := .inr getAuthorizeUrl
  tokenUrl := .inr getTokenUrl
  defaultScopes := ["openid", "profile", "email", "User.Read"]

/-- The official provider registry (`providers/index.ts`). -/
def providersMap : List (String × OAuthProviderD) := [("github", github), ("microsoft", microsoft)]

/-- The official provider identifiers. -/
def officialProviderIds : List String := ["github", "microsoft"]

/-- Template interpolation of an endpoint value. -/
def endpointText : String ⊕ (ProviderConfig → String) → String
  | .inl s => s
  | .inr _ => "[Function]"

/-! ## Cookie jar and orchestrator configuration -/

/-- The request's cookie jar: name/value pairs.  Cookie attributes
(`httpOnly`, `sameSite`, `path`, `maxAge`) do not affect presence in the jar
within one exchange and are not tracked. -/
def Jar : Type := List (String × String)

/-- `cookies.get(name)`. -/
def cookiesGet (jar : Jar) (name : String) : Option String :=
  (List.find? (fun kv => kv.1 = name) jar).map fun kv => kv.2

/-- `cookies.set(name, value, ...)`: replaces any previous value. -/
def cookiesSet (jar : Jar) (name value : String) : Jar :=
  (name, value) :: List.filter (fun kv => kv.1 ≠ name) jar

/-- `cookies.delete(name, ...)`. -/
def cookiesDelete (jar : Jar) (name : String) : Jar :=
  List.filter (fun kv => kv.1 ≠ name) jar

/-- `JwtCookieConfig` from `types.ts`. -/
structure JwtCookieConfig where
  name : Option String
  httpOnly : Option Bool
  sameSite : Option String
  secure : Option Bool
  path : Option String
deriving Repr, DecidableEq

/-- `JwtConfig` from `types.ts`. -/
structure JwtConfig where
  secret : String
  expiresInSeconds : Option Nat
  cookie : Option JwtCookieConfig
deriving Repr, DecidableEq

/-- `onInvalidConfiguration` modes. -/
inductive InvalidConfigurationMode where
  | silent
  | warn
  | error
deriving Repr, DecidableEq

/-- The `Padlock` constructor configuration.  OAuth provider entries carry
`Option ProviderConfig` because a key may be present with an undefined value;
trusted provider entries carry whether the value is an actual provider object
(its `authenticate` behaviour is an oracle of each request). -/
structure PadlockConfig where
  baseUrl : String
  oauthProviders : List (String × Option ProviderConfig)
  trustedProviders : List (String × Bool)
  jwt : Option JwtConfig
  onInvalidConfiguration : Option InvalidConfigurationMode
deriving Repr

/-- Key membership (the JS `in` operator on the provider maps). -/
def hasKey {α : Type} (m : List (String × α)) (k : String) : Bool :=
  m.any fun kv => kv.1 = k

/-- Map lookup (first binding, as JS object keys are unique). -/
def mapGet {α : Type} (m : List (String × α)) (k : String) : Option α :=
  (List.find? (fun kv => kv.1 = k) m).map fun kv => kv.2

/-- `getProviderId` from `padlock.ts`. -/
def getProviderId (value : Option String) (keys : List String) : Option String :=
  match value with
  | none => none
  | some s => if s = "" then none else if keys.contains s then some s else none

/-- `JSON.parse(state)` followed by the property accesses on the result: a
parse failure throws a SyntaxError, a `null` result makes the
`parsedState.provider` access throw a TypeError. -/
def parseStateParam (s : String) : Except Err Json :=
  match Json.parse s with
  | none => .error (.raw "SyntaxError")
  | some .null => .error (.raw "TypeError")
  | some j => .ok j

/-- The configured `ProviderConfig` for an identifier — `none` when the key
is absent or its value is undefined (the `!providerConfig` check). -/
def configuredProvider (cfg : PadlockConfig) (pid : String) : Option ProviderConfig :=
  match mapGet cfg.oauthProviders pid with
  | some (some pc) => some pc
  | _ => none

/-- Whether `trustedProviders[raw]` is an actual provider object (the
`!provider` check). -/
def trustedProviderPresent (cfg : PadlockConfig) (raw : String) : Bool :=
  (mapGet cfg.trustedProviders raw).getD false

/-- Bool-valued string prefix test (the JS `startsWith`). -/
def startsWithChars : List Char → List Char → Bool
  | [], _ => true
  | _ :: _, [] => false
  | p :: ps, c :: cs => p = c && startsWithChars ps cs

/-- `extractToken` from `padlock.ts`: bearer `Authorization` header first
(`auth.slice(7)` strips `"Bearer "`), else the session cookie. -/
def extractToken (authHeader : Option String) (jar : Jar) (cookieName : String) : Option String :=
  match authHeader with
  | some a =>
    if startsWithChars "Bearer ".data a.data then some (String.mk (a.data.drop 7))
    else cookiesGet jar cookieName
  | none => cookiesGet jar cookieName

/-! ## Constructor validation -/

/-- Messages emitted by `validateConfiguration`, in evaluation order. -/
def validateConfiguration (oauth : List (String × Option ProviderConfig))
    (trusted : List (String × Bool)) : List String :=
  (oauth.filterMap fun kv =>
    if hasKey trusted kv.1 then
      some ("provider \"" ++ kv.1 ++ "\" cannot exist in both providers and trustedProviders")
    else none)
  ++ oauth.flatMap fun kv =>
    if ¬ officialProviderIds.contains kv.1 then
      ["provider \"" ++ kv.1 ++ "\" is not supported"]
    else
      match kv.2 with
      | none => ["provider \"" ++ kv.1 ++ "\" is missing config"]
      | some cfg =>
        (if cfg.clientId = "" then ["provider \"" ++ kv.1 ++ "\" is missing clientId"] else [])
        ++ (if cfg.clientSecret = "" then ["provider \"" ++ kv.1 ++ "\" is missing clientSecret"] else [])

/-- Outcome of `new Padlock(config)`: whether construction completed, the
warnings printed, and the error thrown (in `error` mode, at the first
violation). -/
structure ConstructResult where
  constructed : Bool
  warnings : List String
  thrown : Option String
deriving Repr, DecidableEq

/-- The `Padlock` constructor: runs `validateConfiguration`, routing each
violation through `handleInvalidConfig` according to the mode (default
`warn`). -/
def construct (cfg : PadlockConfig) : ConstructResult :=
  let msgs := validateConfiguration cfg.oauthProviders cfg.trustedProviders
  match cfg.onInvalidConfiguration.getD .warn with
  | .silent => ⟨true, [], none⟩
  | .warn => ⟨true, msgs.map ("[padlock] " ++ ·), none⟩
  | .error =>
    match msgs with
    | [] => ⟨true, [], none⟩
    | m :: _ => ⟨false, [], some ("[padlock] " ++ m)⟩

/-! ## The initiate handler (`Padlock.auth`) -/

/-- The scope string `Padlock.auth` sends:
`providerConfig.scopes?.join(" ") ?? providerConfig.scope ?? ""`. -/
def authScope (pc : ProviderConfig) : String :=
  match pc.scopes with
  | some l => " ".intercalate l
  | none => pc.scope.getD ""

/-- A handler response: a 302 redirect or the 200 JSON user body. -/
inductive Resp where
  | redirect (location : String)
  | json (user : OAuthUser)
deriving Repr

/-- The session cookie name: `jwt.cookie?.name ?? "padlock_token"`. -/
def jwtCookieName (jc : JwtConfig) : String :=
  (jc.cookie.bind (·.name)).getD "padlock_token"

/-- `respondWithUser`: sign and set the session cookie when a jwt
configuration is present, then answer with the user as JSON. -/
def respondWithUser (jwtCfg : Option JwtConfig) (user : OAuthUser) (jar : Jar) (now : Nat) :
    Resp × Jar :=
  match jwtCfg with
  | some jc =>
    let token := signJwt
      { sub := user.provider ++ ":" ++ user.providerAccountId
        provider := user.provider
        providerAccountId := user.providerAccountId }
      jc.secret (jc.expiresInSeconds.getD 3600) now
    (.json user, cookiesSet jar (jwtCookieName jc) token)
  | none => (.json user, jar)

/-- Outcome of a trusted provider's `authenticate(...args)` call (an
oracle): it threw, or it resolved to a user / a nullish failure signal. -/
inductive TrustedAuthOutcome where
  | threw (tag : String)
  | resolved (user : Option OAuthUser)

/-- What the initiate handler did besides responding. -/
structure AuthTrace where
  authenticateInvoked : Bool
  errorHookCalled : Bool
deriving Repr, DecidableEq

/-- The initiate handler (`Padlock.auth`).  `verifier`, `challenge` and
`stateTok` are the PKCE/entropy values generated for this request;
`authenticate` is the trusted provider's behaviour on the parsed body
arguments; `onUser` is the caller's optional post-authentication hook.
A thrown `error(...)` or any other exception surfaces as `Except.error`. -/
def authRun (cfg : PadlockConfig) (method : String) (providerParam : Option String)
    (origin referer : Option String)
    (verifier challenge stateTok : String)
    (authenticate : TrustedAuthOutcome)
    (onUser : Option (OAuthUser → Except Err OAuthUser))
    (jar : Jar) (now : Nat) : Except Err (Resp × Jar) × AuthTrace :=
  let noCall : AuthTrace := ⟨false, false⟩
  match providerParam with
  | none => (.error (.http ⟨400, "missing provider"⟩), noCall)
  | some raw =>
    if raw = "" then (.error (.http ⟨400, "missing provider"⟩), noCall)
    else if hasKey cfg.oauthProviders raw then
      match getProviderId (some raw) officialProviderIds with
      | none => (.error (.http ⟨400, "invalid provider"⟩), noCall)
      | some providerId =>
        match mapGet providersMap providerId with
        | none => (.error (.raw "unreachable"), noCall)
        | some provider =>
          let jar1 := cookiesSet jar ("pkce_" ++ providerId) verifier
          let jar2 := cookiesSet jar1 ("oauth_state_" ++ providerId) stateTok
          match configuredProvider cfg providerId with
          | none => (.error (.raw "TypeError"), noCall)
          | some providerConfig =>
            let redirectUri := providerConfig.redirectUri.getD (cfg.baseUrl ++ "/auth/callback")
            let scope := authScope providerConfig
            let stateParam := Json.stringify
              (.obj [("provider", .str providerId), ("state", .str stateTok)])
            let params := formEncodePairs
              [("client_id", providerConfig.clientId),
               ("redirect_uri", redirectUri),
               ("response_type", "code"),
               ("scope", scope),
               ("state", stateParam),
               ("code_challenge", challenge),
               ("code_challenge_method", "S256")]
            (.ok (.redirect (endpointText provider.authorizeUrl ++ "?" ++ params), jar2), noCall)
    else if hasKey cfg.trustedProviders raw then
      if method ≠ "POST" then (.error (.http ⟨405, "method not allowed"⟩), noCall)
      else
        match enforceCsrf origin referer cfg.baseUrl with
        | .error e => (.error (.http e), noCall)
        | .ok _ =>
          if ¬ trustedProviderPresent cfg raw then
            (.error (.http ⟨400, "unknown provider"⟩), noCall)
          else
            match authenticate with
            | .threw tag => (.error (.raw tag), ⟨true, false⟩)
            | .resolved none =>
              (.error (.http ⟨401, "authentication failed"⟩), ⟨true, false⟩)
            | .resolved (some user) =>
              match onUser with
              | some hook =>
                match hook user with
                | .error e => (.error e, ⟨true, false⟩)
                | .ok finalUser => (.ok (respondWithUser cfg.jwt finalUser jar now), ⟨true, false⟩)
              | none => (.ok (respondWithUser cfg.jwt user jar now), ⟨true, false⟩)
    else (.error (.http ⟨400, "unknown provider"⟩), noCall)

/-! ## The complete handler (`Padlock.callback`) -/

/-- What the complete handler did besides responding. -/
structure CallbackTrace where
  exchangeInvoked : Bool
  errorHookCalled : Bool
deriving Repr, DecidableEq

/-- Result of the try-block of `Padlock.callback`: the outcome, the cookie
jar as mutated so far (`event.cookies` is shared state, so mutations made
before a throw survive it), and whether the code exchange was reached. -/
structure CallbackStep where
  result : Except Err Resp
  jar : Jar
  exchangeInvoked : Bool

/-- The try-block of `Padlock.callback`, before the surrounding catch.
`exch` and `fetchU` are the provider's exchange/userinfo behaviours
(oracles). -/
def callbackBody (cfg : PadlockConfig)
    (qcode qstate qerror qerrdesc : Option String) (jar : Jar)
    (exch : Except Err (Option Json)) (fetchU : Except Err OAuthUser)
    (onUser : Option (OAuthUser → Except Err OAuthUser)) (now : Nat) : CallbackStep :=
  if ¬ strFalsy qerror then
    let e := qerror.getD ""
    let details :=
      match qerrdesc with
      | some d => if d ≠ "" then e ++ ": " ++ d else e
      | none => e
    ⟨.error (.http ⟨400, details⟩), jar, false⟩
  else if strFalsy qcode ∨ strFalsy qstate then
    ⟨.error (.http ⟨400, "invalid callback"⟩), jar, false⟩
  else
    match parseStateParam (qstate.getD "") with
    | .error e => ⟨.error e, jar, false⟩
    | .ok parsedState =>
      match getProviderId (jsonStrField parsedState "provider") officialProviderIds with
      | none => ⟨.error (.http ⟨400, "unknown provider"⟩), jar, false⟩
      | some providerId =>
        match configuredProvider cfg providerId with
        | none => ⟨.error (.http ⟨400, "provider not configured"⟩), jar, false⟩
        | some _providerConfig =>
          let expectedState := cookiesGet jar ("oauth_state_" ++ providerId)
          let stateTok := jsonStrField parsedState "state"
          if strFalsy expectedState ∨ stateTok ≠ expectedState then
            ⟨.error (.http ⟨400, "invalid state"⟩), jar, false⟩
          else
            let verifier := cookiesGet jar ("pkce_" ++ providerId)
            if strFalsy verifier then
              ⟨.error (.http ⟨400, "missing pkce"⟩), jar, false⟩
            else
              let jar1 := cookiesDelete jar ("pkce_" ++ providerId)
              let jar2 := cookiesDelete jar1 ("oauth_state_" ++ providerId)
              match exch with
              | .error e => ⟨.error e, jar2, true⟩
              | .ok _token =>
                match fetchU with
                | .error e => ⟨.error e, jar2, true⟩
                | .ok user =>
                  match onUser with
                  | some hook =>
                    match hook user with
                    | .error e => ⟨.error e, jar2, true⟩
                    | .ok finalUser =>
                      let rj := respondWithUser cfg.jwt finalUser jar2 now
                      ⟨.ok rj.1, rj.2, true⟩
                  | none =>
                    let rj := respondWithUser cfg.jwt user jar2 now
                    ⟨.ok rj.1, rj.2, true⟩

/-- The complete handler (`Padlock.callback`): the try-block above wrapped in
the catch that invokes the error hook, re-throws status-bearing errors and
maps everything else to a 500. -/
def callbackRun (cfg : PadlockConfig)
    (qcode qstate qerror qerrdesc : Option String) (jar : Jar)
    (exch : Except Err (Option Json)) (fetchU : Except Err OAuthUser)
    (onUser : Option (OAuthUser → Except Err OAuthUser)) (now : Nat) :
    Except HttpErr Resp × Jar × CallbackTrace :=
  let step := callbackBody cfg qcode qstate qerror qerrdesc jar exch fetchU onUser now
  match step.result with
  | .ok r => (.ok r, step.jar, ⟨step.exchangeInvoked, false⟩)
  | .error (.http he) => (.error he, step.jar, ⟨step.exchangeInvoked, true⟩)
  | .error (.raw _) => (.error ⟨500, "auth error"⟩, step.jar, ⟨step.exchangeInvoked, true⟩)

/-! ## The authorization check (`Padlock.authorize`) -/

/-- `Padlock.authorize(event, {required})` at clock time `now`. -/
def authorize (cfg : PadlockConfig) (authHeader : Option String) (jar : Jar)
    (required : Bool) (now : Nat) : Except HttpErr (Option VerifiedPayload) :=
  match cfg.jwt with
  | none => .error ⟨500, "jwt configuration is missing"⟩
  | some jc =>
    let token := extractToken authHeader jar (jwtCookieName jc)
    if strFalsy token then
      if required then .error ⟨401, "invalid or missing token"⟩ else .ok none
    else
      match verifyJwt (token.getD "") jc.secret now with
      | some payload => .ok (some payload)
      | none => if required then .error ⟨401, "invalid token"⟩ else .ok none

/-! ## Claim-level helper predicates -/

/-- The provider identifier embedded in the wire `state` parameter, as the
complete handler resolves it. -/
def parsedProviderOf (qstate : Option String) : Option String :=
  match parseStateParam (qstate.getD "") with
  | .error _ => none
  | .ok j => getProviderId (jsonStrField j "provider") officialProviderIds

/-- Whether the wire `state` parameter embeds a token equal to the
`oauth_state_<providerId>` cookie (and that cookie is usable): the
anti-forgery condition the complete handler checks. -/
def embeddedStateMatches (qstate : Option String) (jar : Jar) : Bool :=
  match parseStateParam (qstate.getD "") with
  | .error _ => false
  | .ok j =>
    match getProviderId (jsonStrField j "provider") officialProviderIds with
    | none => false
    | some pid =>
      let expected := cookiesGet jar ("oauth_state_" ++ pid)
      !strFalsy expected && (jsonStrField j "state" == expected)

/-- Whether a complete request gets past the guards that precede the state
check (no provider error, `code` and `state` present, parseable state, known
and configured provider). -/
def reachesStateCheck (cfg : PadlockConfig) (qcode qstate qerror : Option String) : Bool :=
  strFalsy qerror && !strFalsy qcode && !strFalsy qstate &&
    match parseStateParam (qstate.getD "") with
    | .error _ => false
    | .ok j =>
      match getProviderId (jsonStrField j "provider") officialProviderIds with
      | none => false
      | some pid => (configuredProvider cfg pid).isSome

/-! ## Cookie jar lemmas -/

theorem cookiesGet_delete_self (jar : Jar) (n : String) :
    cookiesGet (cookiesDelete jar n) n = none := by
  have hp : (fun a : String × String => !decide (a.1 = n) && decide (a.1 = n)) =
      fun _ => false := by
    funext a; by_cases h : a.1 = n <;> simp [h]
  simp [cookiesGet, cookiesDelete, List.find?_filter, hp]

theorem cookiesGet_delete_ne (jar : Jar) (n m : String) (h : m ≠ n) :
    cookiesGet (cookiesDelete jar n) m = cookiesGet jar m := by
  have hp : (fun a : String × String => !decide (a.1 = n) && decide (a.1 = m)) =
      fun a => decide (a.1 = m) := by
    funext a
    by_cases h2 : a.1 = m
    · have h3 : ¬ a.1 = n := by rw [h2]; exact h
      simp [h2, h3, h]
    · simp [h2]
  simp [cookiesGet, cookiesDelete, List.find?_filter, hp]

theorem cookiesGet_set_ne (jar : Jar) (n v m : String) (h : m ≠ n) :
    cookiesGet (cookiesSet jar n v) m = cookiesGet jar m := by
  have step : cookiesGet (cookiesSet jar n v) m = cookiesGet (cookiesDelete jar n) m := by
    simp only [cookiesSet, cookiesGet, cookiesDelete]
    rw [List.find?_cons_of_neg]
    simpa using fun e => h e.symm
  rw [step]
  exact cookiesGet_delete_ne jar n m h

/-! ## State validation (C1) -/

theorem callbackBody_state_mismatch
    (cfg : PadlockConfig) (qcode qstate qerror qerrdesc : Option String) (jar : Jar)
    (exch : Except Err (Option Json)) (fetchU : Except Err OAuthUser)
    (onUser : Option (OAuthUser → Except Err OAuthUser)) (now : Nat)
    (hmis : embeddedStateMatches qstate jar = false) :
    (callbackBody cfg qcode qstate qerror qerrdesc jar exch fetchU onUser now).exchangeInvoked
        = false ∧
      (∃ e, (callbackBody cfg qcode qstate qerror qerrdesc jar exch fetchU onUser now).result
        = .error e) ∧
      (reachesStateCheck cfg qcode qstate qerror = true →
        (callbackBody cfg qcode qstate qerror qerrdesc jar exch fetchU onUser now).result
          = .error (.http ⟨400, "invalid state"⟩)) := by
  unfold callbackBody
  cases hqe : strFalsy qerror with
  | false =>
    rw [if_pos (by simp [hqe])]
    exact ⟨rfl, ⟨_, rfl⟩, fun h => by rw [reachesStateCheck] at h; simp [hqe] at h⟩
  | true =>
    rw [if_neg (by simp [hqe])]
    by_cases hcs : strFalsy qcode = true ∨ strFalsy qstate = true
    · rw [if_pos hcs]
      refine ⟨rfl, ⟨_, rfl⟩, fun h => ?_⟩
      rw [reachesStateCheck] at h
      rcases hcs with h1 | h1 <;> simp [h1] at h
    · rw [if_neg hcs]
      push_neg at hcs
      simp only [Bool.not_eq_true] at hcs
      cases hp : parseStateParam (qstate.getD "") with
      | error e =>
        refine ⟨rfl, ⟨_, rfl⟩, fun h => ?_⟩
        rw [reachesStateCheck, hp] at h
        simp at h
      | ok parsedState =>
        rw [embeddedStateMatches, hp] at hmis
        simp only at hmis ⊢
        cases hgp : getProviderId (jsonStrField parsedState "provider") officialProviderIds with
        | none =>
          refine ⟨rfl, ⟨_, rfl⟩, fun h => ?_⟩
          rw [reachesStateCheck, hp] at h
          simp only at h
          rw [hgp] at h
          simp at h
        | some pid =>
          rw [hgp] at hmis
          simp only at hmis ⊢
          cases hcp : configuredProvider cfg pid with
          | none =>
            refine ⟨rfl, ⟨_, rfl⟩, fun h => ?_⟩
            rw [reachesStateCheck, hp] at h
            simp only at h
            rw [hgp] at h
            simp [hcp] at h
          | some pc =>
            by_cases hst : strFalsy (cookiesGet jar ("oauth_state_" ++ pid)) = true ∨
                jsonStrField parsedState "state" ≠ cookiesGet jar ("oauth_state_" ++ pid)
            · rw [if_pos hst]
              exact ⟨rfl, ⟨_, rfl⟩, fun _ => rfl⟩
            · exfalso
              push_neg at hst
              rw [hst.2] at hmis
              simp [hst.1] at hmis

/-- C1: a complete request whose `state` parameter does not embed a token
equal to the `oauth_state_<providerId>` cookie — including a missing or
empty cookie and a malformed `state` parameter — fails (an error response,
for any provider behaviour), the provider code exchange is never reached,
and when the request passed every earlier guard the failure is exactly the
400 "invalid state" state-validation error. -/
theorem callback_state_mismatch_fails_without_exchange
    (cfg : PadlockConfig) (qcode qstate qerror qerrdesc : Option String) (jar : Jar)
    (exch : Except Err (Option Json)) (fetchU : Except Err OAuthUser)
    (onUser : Option (OAuthUser → Except Err OAuthUser)) (now : Nat)
    (hmis : embeddedStateMatches qstate jar = false) :
    (callbackRun cfg qcode qstate qerror qerrdesc jar exch fetchU onUser now).2.2.exchangeInvoked
        = false ∧
      (∃ he, (callbackRun cfg qcode qstate qerror qerrdesc jar exch fetchU onUser now).1
        = .error he) ∧
      (reachesStateCheck cfg qcode qstate qerror = true →
        (callbackRun cfg qcode qstate qerror qerrdesc jar exch fetchU onUser now).1
          = .error ⟨400, "invalid state"⟩) := by
  obtain ⟨hex, ⟨e, hres⟩, hprec⟩ :=
    callbackBody_state_mismatch cfg qcode qstate qerror qerrdesc jar exch fetchU onUser now hmis
  refine ⟨?_, ?_, ?_⟩
  · rcases e with he | tag <;> simp only [callbackRun, hres, hex]
  · rcases e with he | tag
    · exact ⟨he, by simp only [callbackRun, hres]⟩
    · exact ⟨⟨500, "auth error"⟩, by simp only [callbackRun, hres]⟩
  · intro h
    have := hprec h
    simp only [callbackRun, this]

/-- Witness for C1: a github callback whose state parameter embeds the token
"wrong" while the cookie holds "right" satisfies the mismatch hypothesis,
fails with 400 "invalid state", and never invokes the code exchange. -/
theorem callback_state_mismatch_fails_without_exchange_witness :
    embeddedStateMatches (some "\x7b\"provider\":\"github\",\"state\":\"wrong\"\x7d")
        [("oauth_state_github", "right"), ("pkce_github", "ver")] = false ∧
      (callbackRun
          ⟨"http://localhost:5173", [("github", some ⟨"id", "secret", none, none, none, none⟩)],
            [], none, none⟩
          (some "c") (some "\x7b\"provider\":\"github\",\"state\":\"wrong\"\x7d") none none
          [("oauth_state_github", "right"), ("pkce_github", "ver")]
          (.ok none) (.error (.raw "x")) none 0).2.2.exchangeInvoked = false ∧
      (callbackRun
          ⟨"http://localhost:5173", [("github", some ⟨"id", "secret", none, none, none, none⟩)],
            [], none, none⟩
          (some "c") (some "\x7b\"provider\":\"github\",\"state\":\"wrong\"\x7d") none none
          [("oauth_state_github", "right"), ("pkce_github", "ver")]
          (.ok none) (.error (.raw "x")) none 0).1 = .error ⟨400, "invalid state"⟩ :=
  ⟨by rfl,
    (callback_state_mismatch_fails_without_exchange _ _ _ _ _ _ _ _ _ _ (by rfl)).1,
    (callback_state_mismatch_fails_without_exchange _ _ _ _ _ _ _ _ _ _ (by rfl)).2.2 (by rfl)⟩

end Padlock

namespace Padlock

theorem pkceName_ne_stateName (pid : String) : "pkce_" ++ pid ≠ "oauth_state_" ++ pid := by
  intro h
  have h2 := congrArg (fun s => s.data.head?) h
  simp [String.data_append] at h2

theorem callbackRun_jar (cfg : PadlockConfig)
    (qcode qstate qerror qerrdesc : Option String) (jar : Jar)
    (exch : Except Err (Option Json)) (fetchU : Except Err OAuthUser)
    (onUser : Option (OAuthUser → Except Err OAuthUser)) (now : Nat) :
    (callbackRun cfg qcode qstate qerror qerrdesc jar exch fetchU onUser now).2.1
      = (callbackBody cfg qcode qstate qerror qerrdesc jar exch fetchU onUser now).jar := by
  rcases h : (callbackBody cfg qcode qstate qerror qerrdesc jar exch fetchU onUser now).result
    with e | r
  · rcases e with he | tag <;> simp only [callbackRun, h]
  · simp only [callbackRun, h]

theorem callbackRun_exchangeInvoked (cfg : PadlockConfig)
    (qcode qstate qerror qerrdesc : Option String) (jar : Jar)
    (exch : Except Err (Option Json)) (fetchU : Except Err OAuthUser)
    (onUser : Option (OAuthUser → Except Err OAuthUser)) (now : Nat) :
    (callbackRun cfg qcode qstate qerror qerrdesc jar exch fetchU onUser now).2.2.exchangeInvoked
      = (callbackBody cfg qcode qstate qerror qerrdesc jar exch fetchU onUser now).exchangeInvoked := by
  rcases h : (callbackBody cfg qcode qstate qerror qerrdesc jar exch fetchU onUser now).result
    with e | r
  · rcases e with he | tag <;> simp only [callbackRun, h]
  · simp only [callbackRun, h]

end Padlock

namespace Padlock

theorem callbackBody_consumed_cookies
    (cfg : PadlockConfig) (qcode qstate qerror qerrdesc : Option String) (jar : Jar)
    (exch : Except Err (Option Json)) (fetchU : Except Err OAuthUser)
    (onUser : Option (OAuthUser → Except Err OAuthUser)) (now : Nat) (pid : String)
    (hpid : parsedProviderOf qstate = some pid)
    (hname : ∀ jc, cfg.jwt = some jc →
      jwtCookieName jc ≠ "pkce_" ++ pid ∧ jwtCookieName jc ≠ "oauth_state_" ++ pid)
    (hex : (callbackBody cfg qcode qstate qerror qerrdesc jar exch fetchU onUser now).exchangeInvoked
      = true) :
    cookiesGet (callbackBody cfg qcode qstate qerror qerrdesc jar exch fetchU onUser now).jar
        ("pkce_" ++ pid) = none ∧
      cookiesGet (callbackBody cfg qcode qstate qerror qerrdesc jar exch fetchU onUser now).jar
        ("oauth_state_" ++ pid) = none := by
  unfold callbackBody at hex ⊢
  cases hqe : strFalsy qerror with
  | false =>
    rw [if_pos (by simp [hqe])] at hex
    simp at hex
  | true =>
    rw [if_neg (by simp [hqe])] at hex ⊢
    by_cases hcs : strFalsy qcode = true ∨ strFalsy qstate = true
    · rw [if_pos hcs] at hex; simp at hex
    · rw [if_neg hcs] at hex ⊢
      cases hp : parseStateParam (qstate.getD "") with
      | error e => rw [hp] at hex; simp at hex
      | ok parsedState =>
        rw [hp] at hex
        rw [parsedProviderOf, hp] at hpid
        simp only at hex hpid ⊢
        cases hgp : getProviderId (jsonStrField parsedState "provider") officialProviderIds with
        | none => rw [hgp] at hex; simp at hex
        | some pid2 =>
          rw [hgp] at hex hpid
          simp only [Option.some.injEq] at hpid
          subst hpid
          simp only at hex ⊢
          cases hcp : configuredProvider cfg pid2 with
          | none => rw [hcp] at hex; simp at hex
          | some pc =>
            rw [hcp] at hex
            simp only at hex ⊢
            by_cases hst : strFalsy (cookiesGet jar ("oauth_state_" ++ pid2)) = true ∨
                jsonStrField parsedState "state" ≠ cookiesGet jar ("oauth_state_" ++ pid2)
            · rw [if_pos hst] at hex; simp at hex
            · rw [if_neg hst] at hex ⊢
              by_cases hpk : strFalsy (cookiesGet jar ("pkce_" ++ pid2)) = true
              · rw [if_pos hpk] at hex; simp at hex
              · rw [if_neg hpk] at hex ⊢
                have hjar2 :
                    cookiesGet (cookiesDelete (cookiesDelete jar ("pkce_" ++ pid2))
                        ("oauth_state_" ++ pid2)) ("pkce_" ++ pid2) = none ∧
                      cookiesGet (cookiesDelete (cookiesDelete jar ("pkce_" ++ pid2))
                        ("oauth_state_" ++ pid2)) ("oauth_state_" ++ pid2) = none := by
                  constructor
                  · rw [cookiesGet_delete_ne _ _ _ (pkceName_ne_stateName pid2)]
                    exact cookiesGet_delete_self _ _
                  · exact cookiesGet_delete_self _ _
                have hset : ∀ j2 : Jar,
                    cookiesGet j2 ("pkce_" ++ pid2) = none →
                    cookiesGet j2 ("oauth_state_" ++ pid2) = none →
                    ∀ u : OAuthUser,
                    cookiesGet (respondWithUser cfg.jwt u j2 now).2 ("pkce_" ++ pid2) = none ∧
                      cookiesGet (respondWithUser cfg.jwt u j2 now).2 ("oauth_state_" ++ pid2)
                        = none := by
                  intro j2 h1 h2 u
                  rcases hj : cfg.jwt with _ | jc
                  · simpa [respondWithUser, hj] using ⟨h1, h2⟩
                  · obtain ⟨hn1, hn2⟩ := hname jc hj
                    constructor
                    · rw [respondWithUser]
                      simp only
                      rw [cookiesGet_set_ne _ _ _ _ (fun e => hn1 e.symm)]
                      exact h1
                    · rw [respondWithUser]
                      simp only
                      rw [cookiesGet_set_ne _ _ _ _ (fun e => hn2 e.symm)]
                      exact h2
                rcases exch with e | tok
                · simpa only using hjar2
                · rcases fetchU with e | user
                  · simpa only using hjar2
                  · rcases onUser with _ | hook
                    · simpa only using hset _ hjar2.1 hjar2.2 _
                    · rcases hhook : hook user with e | fu
                      · simp only [hhook]
                        exact hjar2
                      · simp only [hhook]
                        exact hset _ hjar2.1 hjar2.2 _

end Padlock

namespace Padlock

/-- C2 counterexample: a complete invocation that read the state cookie but
failed validation (embedded token "forged" against cookie "genuine") leaves
both the `pkce_github` and `oauth_state_github` cookies in the jar, so the
claim that every complete invocation that consumed the ephemeral artifacts —
whether validation succeeds or fails — deletes both cookies is false as
stated. -/
theorem callback_cleanup_claim_counterexample :
    (callbackRun
        ⟨"http://localhost:5173", [("github", some ⟨"id", "secret", none, none, none, none⟩)],
          [], none, none⟩
        (some "c") (some "\x7b\"provider\":\"github\",\"state\":\"forged\"\x7d") none none
        [("oauth_state_github", "genuine"), ("pkce_github", "ver")]
        (.ok none) (.error (.raw "x")) none 0).1 = .error ⟨400, "invalid state"⟩ ∧
      cookiesGet
        (callbackRun
          ⟨"http://localhost:5173", [("github", some ⟨"id", "secret", none, none, none, none⟩)],
            [], none, none⟩
          (some "c") (some "\x7b\"provider\":\"github\",\"state\":\"forged\"\x7d") none none
          [("oauth_state_github", "genuine"), ("pkce_github", "ver")]
          (.ok none) (.error (.raw "x")) none 0).2.1 "pkce_github" = some "ver" ∧
      cookiesGet
        (callbackRun
          ⟨"http://localhost:5173", [("github", some ⟨"id", "secret", none, none, none, none⟩)],
            [], none, none⟩
          (some "c") (some "\x7b\"provider\":\"github\",\"state\":\"forged\"\x7d") none none
          [("oauth_state_github", "genuine"), ("pkce_github", "ver")]
          (.ok none) (.error (.raw "x")) none 0).2.1 "oauth_state_github" = some "genuine" :=
  ⟨rfl, rfl, rfl⟩

/-- C2 amended: after every complete invocation that consumed both ephemeral
artifacts — i.e. that passed the state and PKCE checks and reached the code
exchange — the `pkce_<providerId>` and `oauth_state_<providerId>` cookies are
deleted, whether the exchange and the subsequent steps succeed or fail
(provided the configured session cookie is not named like one of them). -/
theorem callback_consumed_cookies_deleted
    (cfg : PadlockConfig) (qcode qstate qerror qerrdesc : Option String) (jar : Jar)
    (exch : Except Err (Option Json)) (fetchU : Except Err OAuthUser)
    (onUser : Option (OAuthUser → Except Err OAuthUser)) (now : Nat) (pid : String)
    (hpid : parsedProviderOf qstate = some pid)
    (hname : ∀ jc, cfg.jwt = some jc →
      jwtCookieName jc ≠ "pkce_" ++ pid ∧ jwtCookieName jc ≠ "oauth_state_" ++ pid)
    (hex : (callbackRun cfg qcode qstate qerror qerrdesc jar exch fetchU onUser now).2.2.exchangeInvoked
      = true) :
    cookiesGet (callbackRun cfg qcode qstate qerror qerrdesc jar exch fetchU onUser now).2.1
        ("pkce_" ++ pid) = none ∧
      cookiesGet (callbackRun cfg qcode qstate qerror qerrdesc jar exch fetchU onUser now).2.1
        ("oauth_state_" ++ pid) = none := by
  rw [callbackRun_exchangeInvoked] at hex
  rw [callbackRun_jar]
  exact callbackBody_consumed_cookies cfg qcode qstate qerror qerrdesc jar exch fetchU onUser
    now pid hpid hname hex

/-- C3: the authorize redirect's scope parameter does NOT merge the
provider's default scopes.  For a github configuration with caller scopes
`["repo"]` the handler emits `scope=repo`, while the claim (and the repo's
own test suite) require the default scopes `read:user user:email` followed
by the caller's, i.e. `read:user user:email repo`; with no caller scopes the
handler emits the empty scope instead of the defaults.  This evaluates the
code at the failing input, exhibiting the divergence. -/
theorem auth_scope_omits_default_scopes :
    authScope ⟨"id", "secret", some ["repo"], none, none, none⟩ = "repo" ∧
      " ".intercalate (github.defaultScopes ++ ["repo"]) = "read:user user:email repo" ∧
      authScope ⟨"id", "secret", some ["repo"], none, none, none⟩ ≠
        " ".intercalate (github.defaultScopes ++ ["repo"]) ∧
      authScope ⟨"id", "secret", none, none, none, none⟩ = "" ∧
      (authRun
          ⟨"http://localhost:5173",
            [("github", some ⟨"id", "secret", some ["repo"], none, none, none⟩)], [], none, none⟩
          "GET" (some "github") none none "V" "CH" "S1" (.resolved none) none [] 0).1
        = .ok (.redirect
            ("https://github.com/login/oauth/authorize?client_id=id&redirect_uri=http%3A%2F%2Flocalhost%3A5173%2Fauth%2Fcallback&response_type=code&scope=repo&state=%7B%22provider%22%3A%22github%22%2C%22state%22%3A%22S1%22%7D&code_challenge=CH&code_challenge_method=S256"),
            [("oauth_state_github", "S1"), ("pkce_github", "V")]) :=
  ⟨rfl, rfl, by decide, rfl, rfl⟩

/-- Witness for the amended C2: a github callback with matching state and
present PKCE cookie whose code exchange then fails still ends with both
ephemeral cookies absent. -/
theorem callback_consumed_cookies_deleted_witness :
    parsedProviderOf (some "\x7b\"provider\":\"github\",\"state\":\"genuine\"\x7d")
        = some "github" ∧
      cookiesGet
        (callbackRun
          ⟨"http://localhost:5173", [("github", some ⟨"id", "secret", none, none, none, none⟩)],
            [], some ⟨"sec", none, none⟩, none⟩
          (some "c") (some "\x7b\"provider\":\"github\",\"state\":\"genuine\"\x7d") none none
          [("oauth_state_github", "genuine"), ("pkce_github", "ver")]
          (.error (.raw "network")) (.error (.raw "x")) none 0).2.1 "pkce_github" = none ∧
      cookiesGet
        (callbackRun
          ⟨"http://localhost:5173", [("github", some ⟨"id", "secret", none, none, none, none⟩)],
            [], some ⟨"sec", none, none⟩, none⟩
          (some "c") (some "\x7b\"provider\":\"github\",\"state\":\"genuine\"\x7d") none none
          [("oauth_state_github", "genuine"), ("pkce_github", "ver")]
          (.error (.raw "network")) (.error (.raw "x")) none 0).2.1 "oauth_state_github" = none :=
  ⟨by rfl,
    (callback_consumed_cookies_deleted _ _ _ _ _ _ _ _ _ _ "github" (by rfl)
      (by intro jc hjc; cases hjc; exact ⟨by decide, by decide⟩) (by rfl)).1,
    (callback_consumed_cookies_deleted _ _ _ _ _ _ _ _ _ _ "github" (by rfl)
      (by intro jc hjc; cases hjc; exact ⟨by decide, by decide⟩) (by rfl)).2⟩

end Padlock

namespace Padlock

/-- C4: Microsoft tenant policy.  With exactly one allowed tenant both the
authorize and token URLs are scoped to that tenant segment; with zero or
several entries both use the `common` endpoint; and when the filtered
allow-list is non-empty, `exchangeCode` fails with the tenant-rejection
error exactly when the issued access token's decoded `tid` claim is absent
or not in the list, succeeding (returning the token) when it is present and
allowed; an absent access token is likewise rejected. -/
theorem microsoft_tenant_policy :
    (∀ config t, config.allowedTenants = some [t] →
      getAuthorizeUrl config
          = "https://login.microsoftonline.com/" ++ t ++ "/oauth2/v2.0/authorize" ∧
        getTokenUrl config = "https://login.microsoftonline.com/" ++ t ++ "/oauth2/v2.0/token") ∧
    (∀ config, (config.allowedTenants = none ∨
        (∃ l, config.allowedTenants = some l ∧ l.length ≠ 1)) →
      getAuthorizeUrl config = "https://login.microsoftonline.com/common/oauth2/v2.0/authorize" ∧
        getTokenUrl config = "https://login.microsoftonline.com/common/oauth2/v2.0/token") ∧
    (∀ config (j : Json) (tok : String), j ≠ Json.null →
      j.getField "access_token" = some (.str tok) → tok ≠ "" →
      (config.allowedTenants.getD []).filter (· ≠ "") ≠ [] →
      ((microsoftExchangeCode config (.ok j) = .error (.raw "tenant not allowed")) ↔
        ¬ ∃ t, getJwtTenantId tok = some t ∧
          t ∈ (config.allowedTenants.getD []).filter (· ≠ "")) ∧
      (∀ t, getJwtTenantId tok = some t →
        t ∈ (config.allowedTenants.getD []).filter (· ≠ "") →
        microsoftExchangeCode config (.ok j) = .ok (some (.str tok)))) ∧
    (∀ config (j : Json), j ≠ Json.null → j.getField "access_token" = none →
      (config.allowedTenants.getD []).filter (· ≠ "") ≠ [] →
      microsoftExchangeCode config (.ok j) = .error (.raw "tenant not allowed")) := by
  refine ⟨?_, ?_, ?_, ?_⟩
  · intro config t h
    constructor <;> simp [getAuthorizeUrl, getTokenUrl, getTenant, h]
  · intro config h
    rcases h with h | ⟨l, h, hl⟩
    · constructor <;> simp [getAuthorizeUrl, getTokenUrl, getTenant, h]
    · constructor <;> simp [getAuthorizeUrl, getTokenUrl, getTenant, h, hl]
  · intro config j tok hj hat htok hne
    have hred : microsoftExchangeCode config (.ok j)
        = msTenantCheck config (some (.str tok)) := by
      cases j with
      | null => exact absurd rfl hj
      | obj fs => simp only [microsoftExchangeCode]; rw [← hat]
      | _ => rw [Json.getField] at hat <;> cases hat
    rw [hred]
    rw [msTenantCheck]
    rw [if_pos hne]
    have htr : Json.truthy (.str tok) = true := by simp [Json.truthy, htok]
    simp only [htr, if_true]
    cases hgt : getJwtTenantId tok with
    | none =>
      simp only
      constructor
      · constructor
        · rintro - ⟨t, ht, hm⟩
          cases ht
        · intro h2
          trivial
      · intro t ht
        cases ht
    | some t =>
      simp only
      by_cases hmem : t ∈ (config.allowedTenants.getD []).filter (· ≠ "")
      · rw [if_pos (by simpa using hmem)]
        constructor
        · constructor
          · intro h2
            cases h2
          · intro h2
            exact absurd ⟨t, rfl, hmem⟩ h2
        · intro t2 ht2 hm2
          rfl
      · rw [if_neg (by simpa using hmem)]
        constructor
        · constructor
          · rintro - ⟨t2, ht2, hm2⟩
            simp only [Option.some.injEq] at ht2
            subst ht2
            exact hmem hm2
          · intro h2
            rfl
        · intro t2 ht2 hm2
          simp only [Option.some.injEq] at ht2
          subst ht2
          exact absurd hm2 hmem
  · intro config j hj hat hne
    have hred : microsoftExchangeCode config (.ok j) = msTenantCheck config none := by
      cases j with
      | null => exact absurd rfl hj
      | obj fs => simp only [microsoftExchangeCode]; rw [← hat]
      | _ => simp only [microsoftExchangeCode, Json.getField]
    rw [hred, msTenantCheck, if_pos hne]


/-- Witness for C4: concrete single-tenant and multi-tenant configurations
produce the tenant-scoped and common endpoints, and a token whose payload
decodes to tenant-a passes a tenant-a allow-list and is rejected by a
tenant-b allow-list. -/
theorem microsoft_tenant_policy_witness :
    getAuthorizeUrl ⟨"id", "sec", none, none, none, some ["tenant-a"]⟩
        = "https://login.microsoftonline.com/tenant-a/oauth2/v2.0/authorize" ∧
      getTokenUrl ⟨"id", "sec", none, none, none, some ["tenant-a", "tenant-b"]⟩
        = "https://login.microsoftonline.com/common/oauth2/v2.0/token" ∧
      microsoftExchangeCode ⟨"id", "sec", none, none, none, some ["tenant-a"]⟩
          (.ok (.obj [("access_token", .str "h.eyJ0aWQiOiJ0ZW5hbnQtYSJ9.s")]))
        = .ok (some (.str "h.eyJ0aWQiOiJ0ZW5hbnQtYSJ9.s")) ∧
      microsoftExchangeCode ⟨"id", "sec", none, none, none, some ["tenant-b"]⟩
          (.ok (.obj [("access_token", .str "h.eyJ0aWQiOiJ0ZW5hbnQtYSJ9.s")]))
        = .error (.raw "tenant not allowed") := by
  have he : getJwtTenantId "h.eyJ0aWQiOiJ0ZW5hbnQtYSJ9.s" = some "tenant-a" := by rfl
  refine ⟨(microsoft_tenant_policy.1 _ "tenant-a" rfl).1,
    (microsoft_tenant_policy.2.1 _ (Or.inr ⟨["tenant-a", "tenant-b"], rfl, by decide⟩)).2,
    (microsoft_tenant_policy.2.2.1 ⟨"id", "sec", none, none, none, some ["tenant-a"]⟩
        (.obj [("access_token", .str "h.eyJ0aWQiOiJ0ZW5hbnQtYSJ9.s")])
        "h.eyJ0aWQiOiJ0ZW5hbnQtYSJ9.s"
        (fun h => Json.noConfusion h) rfl (by decide) (by decide)).2
      "tenant-a" he (by decide),
    (microsoft_tenant_policy.2.2.1 ⟨"id", "sec", none, none, none, some ["tenant-b"]⟩
        (.obj [("access_token", .str "h.eyJ0aWQiOiJ0ZW5hbnQtYSJ9.s")])
        "h.eyJ0aWQiOiJ0ZW5hbnQtYSJ9.s"
        (fun h => Json.noConfusion h) rfl (by decide) (by decide)).1.mpr ?_⟩
  rintro ⟨t, ht, hm⟩
  rw [he] at ht
  cases ht
  revert hm
  decide

end Padlock

namespace Padlock

/-- C5: CSRF guard on the trusted-provider POST path.  A present, non-empty
`Origin` header whose origin differs from the base URL's origin fails with
403 "invalid origin" and `authenticate` is never invoked; likewise a
cross-origin `Referer` (with no `Origin`) fails with 403 "invalid referer";
and a request with neither header is not rejected by the guard — it
proceeds to invoke `authenticate`. -/
theorem trusted_post_csrf_guard :
    (∀ (cfg : PadlockConfig) (raw : String) (origin referer : Option String)
        (v ch st : String) (auth : TrustedAuthOutcome)
        (onUser : Option (OAuthUser → Except Err OAuthUser)) (jar : Jar) (now : Nat) (o : String),
      raw ≠ "" → hasKey cfg.oauthProviders raw = false → hasKey cfg.trustedProviders raw = true →
      origin = some o → o ≠ "" → isSameOrigin o cfg.baseUrl = false →
      (authRun cfg "POST" (some raw) origin referer v ch st auth onUser jar now).1
          = .error (.http ⟨403, "invalid origin"⟩) ∧
        (authRun cfg "POST" (some raw) origin referer v ch st auth onUser jar now).2.authenticateInvoked
          = false) ∧
    (∀ (cfg : PadlockConfig) (raw : String) (referer : Option String)
        (v ch st : String) (auth : TrustedAuthOutcome)
        (onUser : Option (OAuthUser → Except Err OAuthUser)) (jar : Jar) (now : Nat) (r : String),
      raw ≠ "" → hasKey cfg.oauthProviders raw = false → hasKey cfg.trustedProviders raw = true →
      referer = some r → r ≠ "" → isSameOrigin r cfg.baseUrl = false →
      (authRun cfg "POST" (some raw) none referer v ch st auth onUser jar now).1
          = .error (.http ⟨403, "invalid referer"⟩) ∧
        (authRun cfg "POST" (some raw) none referer v ch st auth onUser jar now).2.authenticateInvoked
          = false) ∧
    (∀ (cfg : PadlockConfig) (raw : String)
        (v ch st : String) (auth : TrustedAuthOutcome)
        (onUser : Option (OAuthUser → Except Err OAuthUser)) (jar : Jar) (now : Nat),
      raw ≠ "" → hasKey cfg.oauthProviders raw = false → hasKey cfg.trustedProviders raw = true →
      trustedProviderPresent cfg raw = true →
      enforceCsrf none none cfg.baseUrl = .ok () ∧
        (authRun cfg "POST" (some raw) none none v ch st auth onUser jar now).2.authenticateInvoked
          = true) := by
  refine ⟨?_, ?_, ?_⟩
  · intro cfg raw origin referer v ch st auth onUser jar now o hraw hoa htr ho hone hsame
    subst ho
    rw [authRun.eq_def]
    simp only
    rw [if_neg (by simpa using hraw), if_neg (by simp [hoa]), if_pos (by simp [htr]),
      if_neg (by simp)]
    have hcsrf : enforceCsrf (some o) referer cfg.baseUrl
        = .error ⟨403, "invalid origin"⟩ := by
      rw [enforceCsrf.eq_def]
      simp [hone, hsame, Bind.bind, Except.bind, throw, throwThe, MonadExceptOf.throw]
    rw [hcsrf]
    exact ⟨rfl, rfl⟩
  · intro cfg raw referer v ch st auth onUser jar now r hraw hoa htr hr hrne hsame
    subst hr
    rw [authRun.eq_def]
    simp only
    rw [if_neg (by simpa using hraw), if_neg (by simp [hoa]), if_pos (by simp [htr]),
      if_neg (by simp)]
    have hcsrf : enforceCsrf none (some r) cfg.baseUrl
        = .error ⟨403, "invalid referer"⟩ := by
      rw [enforceCsrf.eq_def]
      simp [hrne, hsame, Bind.bind, Except.bind, throw, throwThe, MonadExceptOf.throw, pure, Except.pure]
    rw [hcsrf]
    exact ⟨rfl, rfl⟩
  · intro cfg raw v ch st auth onUser jar now hraw hoa htr hpres
    have hcsrf : enforceCsrf none none cfg.baseUrl = .ok () := by
      rw [enforceCsrf.eq_def]
      rfl
    refine ⟨hcsrf, ?_⟩
    rw [authRun.eq_def]
    simp only
    rw [if_neg (by simpa using hraw), if_neg (by simp [hoa]), if_pos (by simp [htr]),
      if_neg (by simp)]
    rw [hcsrf]
    simp only [if_neg (by simp [hpres] : ¬ ¬ trustedProviderPresent cfg raw = true)]
    rcases auth with tag | u
    · rfl
    · rcases u with _ | user
      · rfl
      · rcases onUser with _ | hook
        · rfl
        · rcases hh : hook user with e | fu <;> simp only [hh]


/-- Witness for C5: against base URL http://localhost:5173, an Origin of
http://evil.com yields 403 without invoking authenticate, a Referer of
http://evil.com/page likewise, and a request with neither header reaches
authenticate. -/
theorem trusted_post_csrf_guard_witness :
    isSameOrigin "http://evil.com" "http://localhost:5173" = false ∧
      (authRun ⟨"http://localhost:5173", [], [("internal", true)], none, none⟩
          "POST" (some "internal") (some "http://evil.com") none "V" "CH" "S1"
          (.resolved none) none [] 0).1 = .error (.http ⟨403, "invalid origin"⟩) ∧
      (authRun ⟨"http://localhost:5173", [], [("internal", true)], none, none⟩
          "POST" (some "internal") (some "http://evil.com") none "V" "CH" "S1"
          (.resolved none) none [] 0).2.authenticateInvoked = false ∧
      (authRun ⟨"http://localhost:5173", [], [("internal", true)], none, none⟩
          "POST" (some "internal") none (some "http://evil.com/page") "V" "CH" "S1"
          (.resolved none) none [] 0).1 = .error (.http ⟨403, "invalid referer"⟩) ∧
      (authRun ⟨"http://localhost:5173", [], [("internal", true)], none, none⟩
          "POST" (some "internal") none none "V" "CH" "S1"
          (.resolved none) none [] 0).2.authenticateInvoked = true := by
  refine ⟨by rfl,
    (trusted_post_csrf_guard.1 ⟨"http://localhost:5173", [], [("internal", true)], none, none⟩ "internal" (some "http://evil.com") none "V" "CH" "S1" (.resolved none) none [] 0 "http://evil.com"
      (by decide) rfl rfl rfl (by decide) (by rfl)).1,
    (trusted_post_csrf_guard.1 ⟨"http://localhost:5173", [], [("internal", true)], none, none⟩ "internal" (some "http://evil.com") none "V" "CH" "S1" (.resolved none) none [] 0 "http://evil.com"
      (by decide) rfl rfl rfl (by decide) (by rfl)).2,
    (trusted_post_csrf_guard.2.1 ⟨"http://localhost:5173", [], [("internal", true)], none, none⟩ "internal" (some "http://evil.com/page") "V" "CH" "S1" (.resolved none) none [] 0 "http://evil.com/page"
      (by decide) rfl rfl rfl (by decide) (by rfl)).1,
    (trusted_post_csrf_guard.2.2 ⟨"http://localhost:5173", [], [("internal", true)], none, none⟩ "internal" "V" "CH" "S1" (.resolved none) none [] 0
      (by decide) rfl rfl rfl).2⟩


end Padlock

namespace Padlock

/-- C10 (implicit): on the initiate trusted-provider path, only a
null/undefined result of `authenticate` is mapped to the 401 unauthorized
failure; when `authenticate` throws, the exception propagates out of the
handler unchanged (not mapped to 401 or 500), and in both cases the
configured error hook is not invoked — it is wired only into the complete
path. -/
theorem trusted_authenticate_error_propagation :
    (∀ (cfg : PadlockConfig) (raw : String) (origin referer : Option String)
        (v ch st : String) (onUser : Option (OAuthUser → Except Err OAuthUser))
        (jar : Jar) (now : Nat) (tag : String),
      raw ≠ "" → hasKey cfg.oauthProviders raw = false → hasKey cfg.trustedProviders raw = true →
      enforceCsrf origin referer cfg.baseUrl = .ok () → trustedProviderPresent cfg raw = true →
      authRun cfg "POST" (some raw) origin referer v ch st (.threw tag) onUser jar now
        = (.error (.raw tag), ⟨true, false⟩)) ∧
    (∀ (cfg : PadlockConfig) (raw : String) (origin referer : Option String)
        (v ch st : String) (onUser : Option (OAuthUser → Except Err OAuthUser))
        (jar : Jar) (now : Nat),
      raw ≠ "" → hasKey cfg.oauthProviders raw = false → hasKey cfg.trustedProviders raw = true →
      enforceCsrf origin referer cfg.baseUrl = .ok () → trustedProviderPresent cfg raw = true →
      authRun cfg "POST" (some raw) origin referer v ch st (.resolved none) onUser jar now
        = (.error (.http ⟨401, "authentication failed"⟩), ⟨true, false⟩)) := by
  constructor
  · intro cfg raw origin referer v ch st onUser jar now tag hraw hoa htr hcsrf hpres
    rw [authRun.eq_def]
    simp only
    rw [if_neg (by simpa using hraw), if_neg (by simp [hoa]), if_pos (by simp [htr]),
      if_neg (by simp), hcsrf]
    simp only [if_neg (by simp [hpres] : ¬ ¬ trustedProviderPresent cfg raw = true)]
  · intro cfg raw origin referer v ch st onUser jar now hraw hoa htr hcsrf hpres
    rw [authRun.eq_def]
    simp only
    rw [if_neg (by simpa using hraw), if_neg (by simp [hoa]), if_pos (by simp [htr]),
      if_neg (by simp), hcsrf]
    simp only [if_neg (by simp [hpres] : ¬ ¬ trustedProviderPresent cfg raw = true)]

/-- Witness for C10: with a trusted provider "internal" and no cross-origin
headers, a thrown "boom" surfaces as the raw exception "boom" with the
error-hook flag false, and a null result surfaces as 401. -/
theorem trusted_authenticate_error_propagation_witness :
    enforceCsrf none none "http://localhost:5173" = .ok () ∧
      authRun ⟨"http://localhost:5173", [], [("internal", true)], none, none⟩
          "POST" (some "internal") none none "V" "CH" "S1" (.threw "boom") none [] 0
        = (.error (.raw "boom"), ⟨true, false⟩) ∧
      authRun ⟨"http://localhost:5173", [], [("internal", true)], none, none⟩
          "POST" (some "internal") none none "V" "CH" "S1" (.resolved none) none [] 0
        = (.error (.http ⟨401, "authentication failed"⟩), ⟨true, false⟩) :=
  ⟨by rfl,
    trusted_authenticate_error_propagation.1
      ⟨"http://localhost:5173", [], [("internal", true)], none, none⟩
      "internal" none none "V" "CH" "S1" none [] 0 "boom"
      (by decide) rfl rfl (by rfl) rfl,
    trusted_authenticate_error_propagation.2
      ⟨"http://localhost:5173", [], [("internal", true)], none, none⟩
      "internal" none none "V" "CH" "S1" none [] 0
      (by decide) rfl rfl (by rfl) rfl⟩

end Padlock

namespace Padlock

/-! ## Codec inversion lemmas -/

theorem unescDot_cons (c : Char) (r : List Char) (hc : c ≠ '%') :
    unescDot (c :: r) = c :: unescDot r := by
  cases r with
  | nil => rfl
  | cons d r2 => simp [unescDot, hc]

theorem unescDot_escDot (l : List Char) : unescDot (escDot l) = l := by
  induction l with
  | nil => rfl
  | cons c t ih =>
    by_cases hp : c = '%'
    · subst hp
      show unescDot ('%' :: 'p' :: escDot t) = '%' :: t
      rw [show unescDot ('%' :: 'p' :: escDot t) = '%' :: unescDot (escDot t) by
        simp [unescDot]]
      rw [ih]
    · by_cases hd : c = '.'
      · subst hd
        show unescDot ('%' :: 'd' :: escDot t) = '.' :: t
        rw [show unescDot ('%' :: 'd' :: escDot t) = '.' :: unescDot (escDot t) by
          simp [unescDot]]
        rw [ih]
      · show unescDot (escDotChar c ++ escDot t) = c :: t
        rw [show escDotChar c = [c] by simp [escDotChar, hp, hd]]
        rw [List.singleton_append, unescDot_cons c _ hp, ih]

theorem dot_not_mem_escDot (l : List Char) : '.' ∉ escDot l := by
  intro hmem
  rw [escDot, List.mem_flatMap] at hmem
  obtain ⟨c, _, hc⟩ := hmem
  rw [escDotChar] at hc
  by_cases hp : c = '%'
  · simp [hp] at hc
  · by_cases hd : c = '.'
    · simp [hp, hd] at hc
    · simp [hp, hd] at hc
      exact hd hc.symm

theorem splitOnChar_no_delim (d : Char) (l : List Char) (h : d ∉ l) :
    splitOnChar d l = [l] := by
  induction l with
  | nil => rfl
  | cons c t ih =>
    have hcd : ¬ c = d := fun e => h (e ▸ List.mem_cons_self c t)
    have ht : d ∉ t := fun m => h (List.mem_cons_of_mem c m)
    rw [splitOnChar]
    simp only [if_neg hcd, ih ht]

theorem splitOnChar_append (d : Char) (x rest : List Char) (h : d ∉ x) :
    splitOnChar d (x ++ d :: rest) = x :: splitOnChar d rest := by
  induction x with
  | nil =>
    rw [List.nil_append, splitOnChar]
    simp
  | cons c t ih =>
    have hcd : ¬ c = d := fun e => h (e ▸ List.mem_cons_self c t)
    have ht : d ∉ t := fun m => h (List.mem_cons_of_mem c m)
    rw [List.cons_append, splitOnChar]
    simp only [if_neg hcd, ih ht]


theorem digitChar_spec (m : Nat) (h : m < 10) :
    isDigit (digitChar m) = true ∧ (digitChar m).toNat - 48 = m := by
  interval_cases m <;> exact ⟨by decide, by decide⟩

theorem natDigitsRev_ne_nil (n : Nat) : natDigitsRev n ≠ [] := by
  rw [natDigitsRev]
  split <;> simp

theorem natDigitsRev_all_digit (n : Nat) : ∀ c ∈ natDigitsRev n, isDigit c = true := by
  induction n using Nat.strong_induction_on with
  | _ n ih =>
    rw [natDigitsRev]
    split
    · next h =>
      intro c hc
      simp only [List.mem_singleton] at hc
      subst hc
      exact (digitChar_spec n h).1
    · next h =>
      intro c hc
      simp only [List.mem_cons] at hc
      rcases hc with hc | hc
      · subst hc
        exact (digitChar_spec _ (Nat.mod_lt _ (by omega))).1
      · exact ih (n / 10) (Nat.div_lt_self (by omega) (by omega)) c hc

theorem foldr_natDigitsRev (n : Nat) :
    (natDigitsRev n).foldr (fun c acc => acc * 10 + (c.toNat - 48)) 0 = n := by
  induction n using Nat.strong_induction_on with
  | _ n ih =>
    rw [natDigitsRev]
    split
    · next h =>
      simp [List.foldr, (digitChar_spec n h).2]
    · next h =>
      rw [List.foldr_cons, ih (n / 10) (Nat.div_lt_self (by omega) (by omega)),
        (digitChar_spec (n % 10) (Nat.mod_lt _ (by omega))).2]
      omega

theorem charsToNat_natToChars (n : Nat) : charsToNat (natToChars n) = n := by
  rw [charsToNat, natToChars, List.foldl_reverse]
  exact foldr_natDigitsRev n

theorem parseNatStrict_natToChars (n : Nat) : parseNatStrict (natToChars n) = some n := by
  rw [parseNatStrict]
  rw [if_neg (by simp [natToChars, natDigitsRev_ne_nil n])]
  rw [if_pos (by
    rw [natToChars, List.all_eq_true]
    intro c hc
    exact natDigitsRev_all_digit n c (List.mem_reverse.mp hc))]
  rw [charsToNat_natToChars]


/-- C7: round-trip of the session token codec — verifying a token with the
same secret at any time within the expiry window returns exactly the signed
payload plus the added `iat`/`exp` metadata claims, for every
sub/provider/providerAccountId triple and secret. -/
theorem signJwt_verifyJwt_roundtrip (sub provider acct secret : String) (e tS tV : Nat)
    (h : tV < tS + e) :
    verifyJwt (signJwt ⟨sub, provider, acct⟩ secret e tS) secret tV
      = some ⟨sub, provider, acct, tS, tS + e⟩ := by
  rw [signJwt, verifyJwt]
  simp only
  have hsplit : splitOnChar '.'
      (String.mk (joinWith '.'
        [escDot sub.data, escDot provider.data, escDot acct.data,
         escDot (natToChars tS), escDot (natToChars (tS + e))] ++
        '.' :: escDot (macTag secret.data (joinWith '.'
          [escDot sub.data, escDot provider.data, escDot acct.data,
           escDot (natToChars tS), escDot (natToChars (tS + e))])))).data
      = [escDot sub.data, escDot provider.data, escDot acct.data,
         escDot (natToChars tS), escDot (natToChars (tS + e)),
         escDot (macTag secret.data (joinWith '.'
          [escDot sub.data, escDot provider.data, escDot acct.data,
           escDot (natToChars tS), escDot (natToChars (tS + e))]))] := by
    show splitOnChar '.' (joinWith '.' _ ++ '.' :: _) = _
    rw [show ∀ a b c d f : List Char, joinWith '.' [a, b, c, d, f]
        = a ++ '.' :: (b ++ '.' :: (c ++ '.' :: (d ++ '.' :: f)))
      from fun a b c d f => rfl]
    simp only [List.append_assoc, List.cons_append]
    rw [splitOnChar_append _ _ _ (dot_not_mem_escDot _),
      splitOnChar_append _ _ _ (dot_not_mem_escDot _),
      splitOnChar_append _ _ _ (dot_not_mem_escDot _),
      splitOnChar_append _ _ _ (dot_not_mem_escDot _),
      splitOnChar_append _ _ _ (dot_not_mem_escDot _),
      splitOnChar_no_delim _ _ (dot_not_mem_escDot _)]
  rw [hsplit]
  simp only
  rw [if_neg (not_not_intro (unescDot_escDot _))]
  rw [unescDot_escDot, unescDot_escDot, parseNatStrict_natToChars, parseNatStrict_natToChars]
  simp only
  rw [if_pos h]
  rw [unescDot_escDot, unescDot_escDot, unescDot_escDot]


/-- Witness for C7: a concrete github session token signed at time 1000 with
an hour's expiry verifies at time 1000 to the signed payload with
`iat = 1000`, `exp = 4600`. -/
theorem signJwt_verifyJwt_roundtrip_witness :
    (1000 : Nat) < 1000 + 3600 ∧
      verifyJwt (signJwt ⟨"github:42", "github", "42"⟩ "s3cret" 3600 1000) "s3cret" 1000
        = some ⟨"github:42", "github", "42", 1000, 4600⟩ :=
  ⟨by decide, signJwt_verifyJwt_roundtrip "github:42" "github" "42" "s3cret" 3600 1000 1000
    (by decide)⟩

end Padlock

namespace Padlock

theorem signJwt_ne_empty (p : PadlockJwtPayload) (secret : String) (e now : Nat) :
    signJwt p secret e now ≠ "" := by
  rw [signJwt]
  intro hc
  have h2 := congrArg String.data hc
  simp at h2

/-- C6: `authorize(request, {required})` — fails 500 when no jwt
configuration exists; with no (or empty) candidate token fails 401 when
required and returns null otherwise; with an invalid/expired token likewise;
with a valid token returns the decoded payload; the bearer `Authorization`
header takes precedence over the cookie; and a freshly signed session token
read from the cookie yields a payload whose `sub` equals
`provider ++ ":" ++ providerAccountId`. -/
theorem authorize_behaviour :
    (∀ (cfg : PadlockConfig) (hdr : Option String) (jar : Jar) (req : Bool) (now : Nat),
      cfg.jwt = none →
      authorize cfg hdr jar req now = .error ⟨500, "jwt configuration is missing"⟩) ∧
    (∀ (cfg : PadlockConfig) (jc : JwtConfig) (hdr : Option String) (jar : Jar) (now : Nat),
      cfg.jwt = some jc → strFalsy (extractToken hdr jar (jwtCookieName jc)) = true →
      authorize cfg hdr jar true now = .error ⟨401, "invalid or missing token"⟩ ∧
        authorize cfg hdr jar false now = .ok none) ∧
    (∀ (cfg : PadlockConfig) (jc : JwtConfig) (hdr : Option String) (jar : Jar) (now : Nat)
        (t : String),
      cfg.jwt = some jc → extractToken hdr jar (jwtCookieName jc) = some t → t ≠ "" →
      verifyJwt t jc.secret now = none →
      authorize cfg hdr jar true now = .error ⟨401, "invalid token"⟩ ∧
        authorize cfg hdr jar false now = .ok none) ∧
    (∀ (cfg : PadlockConfig) (jc : JwtConfig) (hdr : Option String) (jar : Jar) (now : Nat)
        (t : String) (p : VerifiedPayload) (req : Bool),
      cfg.jwt = some jc → extractToken hdr jar (jwtCookieName jc) = some t → t ≠ "" →
      verifyJwt t jc.secret now = some p →
      authorize cfg hdr jar req now = .ok (some p)) ∧
    (∀ (a : String) (jar : Jar) (cname : String),
      startsWithChars "Bearer ".data a.data = true →
      extractToken (some a) jar cname = some (String.mk (a.data.drop 7))) ∧
    (∀ (cfg : PadlockConfig) (jc : JwtConfig) (jar : Jar)
        (provider acct : String) (e tS tV : Nat) (req : Bool),
      cfg.jwt = some jc → tV < tS + e →
      cookiesGet jar (jwtCookieName jc)
        = some (signJwt ⟨provider ++ ":" ++ acct, provider, acct⟩ jc.secret e tS) →
      authorize cfg none jar req tV
        = .ok (some ⟨provider ++ ":" ++ acct, provider, acct, tS, tS + e⟩)) := by
  refine ⟨?_, ?_, ?_, ?_, ?_, ?_⟩
  · intro cfg hdr jar req now hj
    rw [authorize, hj]
  · intro cfg jc hdr jar now hj hf
    rw [authorize, hj, authorize, hj]
    simp only
    simp [hf]
  · intro cfg jc hdr jar now t hj ht htne hv
    rw [authorize, hj, authorize, hj]
    simp only
    rw [ht]
    simp [strFalsy, htne, hv]
  · intro cfg jc hdr jar now t p req hj ht htne hv
    rw [authorize, hj]
    simp only
    rw [ht]
    simp [strFalsy, htne, hv]
  · intro a jar cname hpre
    rw [extractToken, if_pos hpre]
  · intro cfg jc jar provider acct e tS tV req hj h hcook
    rw [authorize, hj]
    simp only
    rw [show extractToken none jar (jwtCookieName jc) = cookiesGet jar (jwtCookieName jc)
      from rfl]
    rw [hcook]
    have hf : strFalsy (some (signJwt ⟨provider ++ ":" ++ acct, provider, acct⟩ jc.secret e tS))
        = false := by simp [strFalsy, signJwt_ne_empty]
    simp only [hf, Bool.false_eq_true, if_false, Option.getD_some]
    rw [signJwt_verifyJwt_roundtrip (provider ++ ":" ++ acct) provider acct jc.secret e tS tV h]


/-- Witness for C6: concrete runs of each branch — missing jwt config, no
token (required and not), an invalid bearer token, header extraction, and a
valid cookie token decoding to sub "github:42". -/
theorem authorize_behaviour_witness :
    authorize ⟨"b", [], [], none, none⟩ none [] true 0
        = .error ⟨500, "jwt configuration is missing"⟩ ∧
      authorize ⟨"b", [], [], some ⟨"sec", none, none⟩, none⟩ none [] true 0
        = .error ⟨401, "invalid or missing token"⟩ ∧
      authorize ⟨"b", [], [], some ⟨"sec", none, none⟩, none⟩ none [] false 0 = .ok none ∧
      authorize ⟨"b", [], [], some ⟨"sec", none, none⟩, none⟩ (some "Bearer garbage") [] true 0
        = .error ⟨401, "invalid token"⟩ ∧
      extractToken (some "Bearer garbage") [] "padlock_token"
        = some (String.mk ("Bearer garbage".data.drop 7)) ∧
      authorize ⟨"b", [], [], some ⟨"sec", none, none⟩, none⟩ none
          [("padlock_token", signJwt ⟨"github:42", "github", "42"⟩ "sec" 3600 5)] false 6
        = .ok (some ⟨"github:42", "github", "42", 5, 3605⟩) :=
  ⟨authorize_behaviour.1 ⟨"b", [], [], none, none⟩ none [] true 0 rfl,
    (authorize_behaviour.2.1 ⟨"b", [], [], some ⟨"sec", none, none⟩, none⟩
      ⟨"sec", none, none⟩ none [] 0 rfl (by rfl)).1,
    (authorize_behaviour.2.1 ⟨"b", [], [], some ⟨"sec", none, none⟩, none⟩
      ⟨"sec", none, none⟩ none [] 0 rfl (by rfl)).2,
    (authorize_behaviour.2.2.1 ⟨"b", [], [], some ⟨"sec", none, none⟩, none⟩
      ⟨"sec", none, none⟩ (some "Bearer garbage") [] 0 "garbage" rfl (by rfl) (by decide)
      (by rfl)).1,
    authorize_behaviour.2.2.2.2.1 "Bearer garbage" [] "padlock_token" (by decide),
    by
      have := authorize_behaviour.2.2.2.2.2 ⟨"b", [], [], some ⟨"sec", none, none⟩, none⟩
        ⟨"sec", none, none⟩
        [("padlock_token", signJwt ⟨"github:42", "github", "42"⟩ "sec" 3600 5)]
        "github" "42" 3600 5 6 false rfl (by decide) (by rfl)
      simpa using this⟩


end Padlock

namespace Padlock

/-- C8: GitHub email resolution.  When the primary userinfo body carries no
truthy email and the secondary lookup returns a non-empty array of entries
(each carrying a string email), the normalized user's email equals the
spec's selection — the entry marked primary and verified, else the entry
marked primary, else the first entry; and when the secondary lookup fails
or responds non-ok, the overall fetch still succeeds with the email
resolving to null. -/
theorem github_email_resolution :
    (∀ (fs : List (String × Json)) (es : List Json),
      (jsCoalesce ((Json.obj fs).getField "email") Json.null).truthy = false →
      es ≠ [] →
      (∀ en ∈ es, ∃ s, en.getField "email" = some (.str s)) →
      ∃ u, githubFetchUser (.obj fs) (.response true (.arr es)) = .ok u ∧
        u.email = specEmailSelection es) ∧
    (∀ (fs : List (String × Json)),
      jsNullish ((Json.obj fs).getField "email") = true →
      (∃ u, githubFetchUser (.obj fs) .failed = .ok u ∧ u.email = Json.null) ∧
      (∀ body, ∃ u, githubFetchUser (.obj fs) (.response false body) = .ok u ∧
        u.email = Json.null)) := by
  constructor
  · intro fs es hfalsy hne hall
    refine ⟨_, rfl, ?_⟩
    show (if (jsCoalesce ((Json.obj fs).getField "email") Json.null).truthy = true then _ else _)
      = _
    rw [if_neg (by simp [hfalsy])]
    rw [if_pos (by cases es with | nil => exact absurd rfl hne | cons h t => simp)]
    rw [specEmailSelection]
    simp only
    cases hpv : es.find? fun en => truthyField en "primary" && truthyField en "verified" with
    | some en =>
      obtain ⟨s, hs⟩ := hall en (List.mem_of_find?_eq_some hpv)
      rw [show emailField (some en) = some (.str s) by rw [emailField, hs]]
      simp [jsCoalesce, jsNullish, hs, List.length_pos, hne]
    | none =>
      cases hpr : es.find? fun en => truthyField en "primary" with
      | some en =>
        obtain ⟨s, hs⟩ := hall en (List.mem_of_find?_eq_some hpr)
        rw [show emailField (some en) = some (.str s) by rw [emailField, hs]]
        simp [jsCoalesce, jsNullish, emailField, hs, List.length_pos, hne]
      | none =>
        cases es with
        | nil => exact absurd rfl hne
        | cons h t =>
          obtain ⟨s, hs⟩ := hall h (List.mem_cons_self h t)
          rw [show emailField (h :: t).head? = some (.str s) by
            rw [List.head?_cons, emailField, hs]]
          simp [jsCoalesce, jsNullish, emailField, hs]
  · intro fs hnull
    have hfalsy : (jsCoalesce ((Json.obj fs).getField "email") Json.null).truthy = false := by
      rw [jsCoalesce, if_pos (by simpa using hnull)]
      rfl
    have hemail0 : jsCoalesce ((Json.obj fs).getField "email") Json.null = Json.null := by
      rw [jsCoalesce, if_pos (by simpa using hnull)]
    constructor
    · refine ⟨_, rfl, ?_⟩
      show (if (jsCoalesce ((Json.obj fs).getField "email") Json.null).truthy = true
          then _ else _) = _
      rw [if_neg (by simp [hfalsy])]
      exact hemail0
    · intro body
      refine ⟨_, rfl, ?_⟩
      show (if (jsCoalesce ((Json.obj fs).getField "email") Json.null).truthy = true
          then _ else _) = _
      rw [if_neg (by simp [hfalsy])]
      simp only [Bool.false_eq_true, if_false]
      exact hemail0


/-- Witness for C8: the test fixture with three candidate emails resolves to
the primary+verified "b@example.com", and a failed lookup leaves the email
null without failing the fetch. -/
theorem github_email_resolution_witness :
    (∃ u, githubFetchUser
        (.obj [("id", .num "1"), ("login", .str "octo"), ("email", .null)])
        (.response true (.arr
          [.obj [("email", .str "a@example.com"), ("primary", .bool true), ("verified", .bool false)],
           .obj [("email", .str "b@example.com"), ("primary", .bool true), ("verified", .bool true)],
           .obj [("email", .str "c@example.com"), ("primary", .bool false), ("verified", .bool true)]]))
        = .ok u ∧ u.email = .str "b@example.com") ∧
      (∃ u, githubFetchUser
        (.obj [("id", .num "1"), ("login", .str "octo"), ("email", .null)]) .failed
        = .ok u ∧ u.email = Json.null) := by
  constructor
  · obtain ⟨u, hu, he⟩ := github_email_resolution.1
      [("id", .num "1"), ("login", .str "octo"), ("email", .null)]
      [.obj [("email", .str "a@example.com"), ("primary", .bool true), ("verified", .bool false)],
       .obj [("email", .str "b@example.com"), ("primary", .bool true), ("verified", .bool true)],
       .obj [("email", .str "c@example.com"), ("primary", .bool false), ("verified", .bool true)]]
      (by rfl) (by simp)
      (by
        intro en hen
        simp only [List.mem_cons, List.not_mem_nil, or_false] at hen
        rcases hen with h | h | h <;> subst h
        · exact ⟨"a@example.com", rfl⟩
        · exact ⟨"b@example.com", rfl⟩
        · exact ⟨"c@example.com", rfl⟩)
    exact ⟨u, hu, he.trans (by rfl)⟩
  · obtain ⟨u, hu, he⟩ := (github_email_resolution.2
      [("id", .num "1"), ("login", .str "octo"), ("email", .null)] (by rfl)).1
    exact ⟨u, hu, he⟩


end Padlock

namespace Padlock

/-- C9: a provider identifier present in both the OAuth and trusted provider
maps is detected by the constructor's `validateConfiguration` for every
configuration (the duplicate-identifier violation message is always
emitted); in `error` mode construction fails with a thrown error, and in
`warn` mode (the default) the violation is reported among the constructor's
warnings while construction completes — enforcement happens at construction
time, not per-request. -/
theorem duplicate_provider_detected_at_construction :
    (∀ (oauth : List (String × Option ProviderConfig)) (trusted : List (String × Bool))
        (k : String) (v : Option ProviderConfig),
      (k, v) ∈ oauth → hasKey trusted k = true →
      ("provider \"" ++ k ++ "\" cannot exist in both providers and trustedProviders")
        ∈ validateConfiguration oauth trusted) ∧
    (∀ (cfg : PadlockConfig) (k : String) (v : Option ProviderConfig),
      (k, v) ∈ cfg.oauthProviders → hasKey cfg.trustedProviders k = true →
      cfg.onInvalidConfiguration = some .error →
      (construct cfg).constructed = false ∧ (construct cfg).thrown ≠ none) ∧
    (∀ (cfg : PadlockConfig) (k : String) (v : Option ProviderConfig),
      (k, v) ∈ cfg.oauthProviders → hasKey cfg.trustedProviders k = true →
      (cfg.onInvalidConfiguration = none ∨ cfg.onInvalidConfiguration = some .warn) →
      (construct cfg).constructed = true ∧
        ("[padlock] " ++ ("provider \"" ++ k ++ "\" cannot exist in both providers and trustedProviders"))
          ∈ (construct cfg).warnings) := by
  have hmem : ∀ (oauth : List (String × Option ProviderConfig))
      (trusted : List (String × Bool)) (k : String) (v : Option ProviderConfig),
      (k, v) ∈ oauth → hasKey trusted k = true →
      ("provider \"" ++ k ++ "\" cannot exist in both providers and trustedProviders")
        ∈ validateConfiguration oauth trusted := by
    intro oauth trusted k v hin htr
    rw [validateConfiguration]
    apply List.mem_append_left
    rw [List.mem_filterMap]
    exact ⟨(k, v), hin, by simp [htr]⟩
  refine ⟨hmem, ?_, ?_⟩
  · intro cfg k v hin htr hmode
    have h1 := hmem cfg.oauthProviders cfg.trustedProviders k v hin htr
    rw [construct, hmode]
    cases hm : validateConfiguration cfg.oauthProviders cfg.trustedProviders with
    | nil => rw [hm] at h1; cases h1
    | cons m t => exact ⟨rfl, by simp⟩
  · intro cfg k v hin htr hmode
    have h1 := hmem cfg.oauthProviders cfg.trustedProviders k v hin htr
    have hw : cfg.onInvalidConfiguration.getD .warn = .warn := by
      rcases hmode with h | h <;> rw [h] <;> rfl
    rw [construct, hw]
    exact ⟨rfl, List.mem_map_of_mem _ h1⟩

/-- Witness for C9: "internal" configured both as an OAuth and as a trusted
provider is reported by validation; construction throws in error mode and
warns (with the prefixed message) in the default mode. -/
theorem duplicate_provider_detected_at_construction_witness :
    ("provider \"internal\" cannot exist in both providers and trustedProviders")
        ∈ validateConfiguration [("internal", some ⟨"id", "sec", none, none, none, none⟩)]
          [("internal", true)] ∧
      (construct ⟨"b", [("internal", some ⟨"id", "sec", none, none, none, none⟩)],
          [("internal", true)], none, some .error⟩).constructed = false ∧
      (construct ⟨"b", [("internal", some ⟨"id", "sec", none, none, none, none⟩)],
          [("internal", true)], none, none⟩).constructed = true ∧
      ("[padlock] " ++ ("provider \"internal\" cannot exist in both providers and trustedProviders"))
        ∈ (construct ⟨"b", [("internal", some ⟨"id", "sec", none, none, none, none⟩)],
          [("internal", true)], none, none⟩).warnings :=
  ⟨duplicate_provider_detected_at_construction.1 _ _ "internal"
      (some ⟨"id", "sec", none, none, none, none⟩) (List.mem_cons_self _ _) rfl,
    (duplicate_provider_detected_at_construction.2.1
      ⟨"b", [("internal", some ⟨"id", "sec", none, none, none, none⟩)],
        [("internal", true)], none, some .error⟩
      "internal" (some ⟨"id", "sec", none, none, none, none⟩)
      (List.mem_cons_self _ _) rfl rfl).1,
    (duplicate_provider_detected_at_construction.2.2
      ⟨"b", [("internal", some ⟨"id", "sec", none, none, none, none⟩)],
        [("internal", true)], none, none⟩
      "internal" (some ⟨"id", "sec", none, none, none, none⟩)
      (List.mem_cons_self _ _) rfl (Or.inl rfl)).1,
    (duplicate_provider_detected_at_construction.2.2
      ⟨"b", [("internal", some ⟨"id", "sec", none, none, none, none⟩)],
        [("internal", true)], none, none⟩
      "internal" (some ⟨"id", "sec", none, none, none, none⟩)
      (List.mem_cons_self _ _) rfl (Or.inl rfl)).2⟩


end Padlock
